import Mathlib

/-!
Verification of the investment-advisor repository's financial data client,
JSON extraction utility, and portfolio aggregation, as a shallow embedding.

Conventions of the embedding:
* Time is modelled as an integer number of seconds (`datetime.now()`); calendar
  dates (the keys of the daily time series, in the source `"%Y-%m-%d"` strings)
  are modelled as integer day numbers, with `Int.fdiv now 86400` converting a
  second-timestamp to its day.  ISO date strings sort lexicographically exactly
  like their day numbers, so `sorted(dates, reverse=True)` becomes a descending
  sort on integers.
* Python floats are modelled as exact rationals (`Rat`); `round` is Python's
  round-half-to-even (`pyRound`, `pyRound2`).
* Network calls are modelled by passing the provider's (would-be) response as
  an explicit argument; the boolean in each operation's result records whether
  a provider request was actually issued.
* The client's single cache dict with keys `price_{symbol}`, `metrics_{symbol}`,
  `overview_{symbol}` and `"sector_performance"` is modelled as four separate
  maps, which is faithful because the key prefixes are disjoint.
* Exceptions caught by the source's `except Exception` blocks (in particular
  `ZeroDivisionError` from a zero past close) are modelled by `Option`-valued
  helpers whose `none` propagates to the `{"error": str(e)}` return value.
-/

namespace InvestmentAdvisor

/-- Python's built-in `round` on an exact rational: round half to even. -/
def pyRound (x : Rat) : Int :=
  let f := x.floor
  let frac := x - (f : Rat)
  if frac < 1/2 then f
  else if frac > 1/2 then f + 1
  else if f % 2 = 0 then f else f + 1

/-- Python's `round(x, 2)`: round to two decimal places, half to even. -/
def pyRound2 (x : Rat) : Rat :=
  (pyRound (x * 100) : Rat) / 100

/-- Python dict assignment `d[k] = v`: overwrite in place or append. -/
def dictInsert {κ α : Type} [DecidableEq κ] :
    List (κ × α) → κ → α → List (κ × α)
  | [], k, v => [(k, v)]
  | (k0, v0) :: t, k, v =>
    if k0 = k then (k, v) :: t else (k0, v0) :: dictInsert t k v

/-- Cache read: `key in cache` followed by the freshness test
`datetime.now() - cache[key]["timestamp"] < timedelta(...)` (strict `<`). -/
def lookupFresh {α : Type} (cache : List (String × Int × α)) (key : String)
    (now ttl : Int) : Option α :=
  match List.lookup key cache with
  | some (t, d) => if now - t < ttl then some d else none
  | none => none

/-! ## Data model (`alpha_vantage_client.py`) -/

/-- The result dict of `get_stock_price` on success. -/
structure FinancialQuote where
  symbol : String
  price : Rat
  change_percent : String
  volume : Int
  last_updated : Int
deriving DecidableEq

inductive QuoteResult where
  | ok (q : FinancialQuote)
  | error (msg : String)
deriving DecidableEq

/-- One horizon's entry in the `performance` map: either a
`{price_change_percent, reference_date}` record or a per-horizon error. -/
inductive HorizonEntry where
  | ok (price_change_percent : Rat) (reference_date : Int)
  | err (msg : String)
deriving DecidableEq

/-- The result dict of `get_performance_metrics` on success; `performance` is
kept as an association list in insertion order (`1mo, 3mo, 6mo, 1yr`),
mirroring Python dict iteration order. -/
structure PerfMetrics where
  symbol : String
  current_price : Rat
  performance : List (String × HorizonEntry)
deriving DecidableEq

inductive PerfResult where
  | ok (m : PerfMetrics)
  | error (msg : String)
deriving DecidableEq

/-- The result dict of `get_etf_overview` on success (`data.get(...)` defaults
already applied). -/
structure OverviewData where
  symbol : String
  name : String
  description : String
  sector : String
  pe_ratio : String
  dividend_yield : String
  market_cap : String
  last_updated : Int
deriving DecidableEq

inductive OverviewResult where
  | ok (o : OverviewData)
  | error (msg : String)
deriving DecidableEq

structure SectorData where
  sectors : List (String × String)
  last_updated : Int
deriving DecidableEq

inductive SectorResult where
  | ok (d : SectorData)
  | error (msg : String)
deriving DecidableEq

/-! ## Provider responses

What `requests.get(...).json()` would deliver, case-split on the shape checks
the source performs. `failure` covers a raised exception (network error, bad
JSON, a field failing `float()`/`int()` conversion), whose `str(e)` is the
carried message. -/

inductive ProviderQuoteResp where
  | noQuote
  | quote (price : Rat) (change_percent : String) (volume : Int)
  | failure (msg : String)

inductive ProviderPerfResp where
  | noData
  | series (ts : List (Int × Rat))
  | failure (msg : String)

inductive ProviderOverviewResp where
  | errorOrEmpty
  | overview (name description sector pe div mcap : Option String)
  | failure (msg : String)

inductive ProviderSectorResp where
  | noRankA
  | ranks (sectors : List (String × String))
  | failure (msg : String)

/-- The mutable state of `AlphaVantageClient`: the api key's presence and the
cache, split by key prefix. The sector cache has the single fixed key
`"sector_performance"`, hence an `Option` slot. -/
structure Client where
  apiKey : Bool
  priceCache : List (String × Int × FinancialQuote)
  metricsCache : List (String × Int × PerfMetrics)
  overviewCache : List (String × Int × OverviewData)
  sectorCache : Option (Int × SectorData)

/-! ## Client operations -/

/-- `AlphaVantageClient.get_stock_price` (alpha_vantage_client.py:27-69).
Returns (result, new client state, whether a provider request was issued). -/
def get_stock_price (c : Client) (now : Int) (resp : ProviderQuoteResp)
    (symbol : String) : QuoteResult × Client × Bool :=
  if c.apiKey = false then (.error "API key not set", c, false)
  else
    match lookupFresh c.priceCache symbol now 3600 with
    | some q => (.ok q, c, false)
    | none =>
      match resp with
      | .failure e => (.error e, c, true)
      | .noQuote => (.error ("No data found for symbol " ++ symbol), c, true)
      | .quote p cp v =>
        let result : FinancialQuote :=
          { symbol := symbol, price := p, change_percent := cp,
            volume := v, last_updated := now }
        (.ok result,
         { c with priceCache := dictInsert c.priceCache symbol (now, result) },
         true)

/-- The four fixed horizons (alpha_vantage_client.py:111-116), in the
source's dict insertion order. -/
def periods : List (String × Int) :=
  [("1mo", 30), ("3mo", 90), ("6mo", 180), ("1yr", 365)]

/-- Insert into a descending-sorted list of dates. -/
def insertDesc (x : Int) : List Int → List Int
  | [] => [x]
  | y :: t => if y ≤ x then x :: y :: t else y :: insertDesc x t

/-- `sorted(time_series.keys(), reverse=True)` on day numbers. -/
def sortDesc : List Int → List Int
  | [] => []
  | x :: t => insertDesc x (sortDesc t)

/-- Python `min(xs, key=f)`: the first element attaining the minimal key
(`none` on an empty sequence, where Python raises `ValueError`). -/
def pyMinBy (f : Int → Nat) : List Int → Option Int
  | [] => none
  | h :: t => some (t.foldl (fun b x => if f x < f b then x else b) h)

/-- One iteration of the horizon loop (alpha_vantage_client.py:118-134).
`none` models an exception escaping to the outer `except` block: `ValueError`
from `min` of an empty sequence, `KeyError` (unreachable, the selected date is
a series key), or `ZeroDivisionError` when the matched past close is `0`. -/
def horizonEntry (now : Int) (ts : List (Int × Rat)) (dates : List Int)
    (current_price : Rat) (days : Int) : Option HorizonEntry :=
  let target := Int.fdiv now 86400 - days
  match pyMinBy (fun x => (x - target).natAbs) dates with
  | none => none
  | some closest =>
    if (closest - target).natAbs ≤ 7 then
      match List.lookup closest ts with
      | none => none
      | some past_price =>
        if past_price = 0 then none
        else
          some (.ok (pyRound2 ((current_price - past_price) / past_price * 100))
                closest)
    else some (.err "No data available within 7 days of target date")

/-- `AlphaVantageClient.get_performance_metrics` (alpha_vantage_client.py:71-145). -/
def get_performance_metrics (c : Client) (now : Int) (resp : ProviderPerfResp)
    (symbol : String) : PerfResult × Client × Bool :=
  if c.apiKey = false then (.error "API key not set", c, false)
  else
    match lookupFresh c.metricsCache symbol now 21600 with
    | some m => (.ok m, c, false)
    | none =>
      match resp with
      | .failure e => (.error e, c, true)
      | .noData => (.error ("No data found for symbol " ++ symbol), c, true)
      | .series ts =>
        match sortDesc (ts.map Prod.fst) with
        | [] => (.error ("No data found for symbol " ++ symbol), c, true)
        | d0 :: drest =>
          match List.lookup d0 ts with
          | none => (.error "KeyError", c, true)
          | some current_price =>
            let dates := d0 :: drest
            match horizonEntry now ts dates current_price 30,
                  horizonEntry now ts dates current_price 90,
                  horizonEntry now ts dates current_price 180,
                  horizonEntry now ts dates current_price 365 with
            | some e1, some e2, some e3, some e4 =>
              let m : PerfMetrics :=
                { symbol := symbol, current_price := current_price,
                  performance :=
                    [("1mo", e1), ("3mo", e2), ("6mo", e3), ("1yr", e4)] }
              (.ok m,
               { c with metricsCache :=
                   dictInsert c.metricsCache symbol (now, m) },
               true)
            | _, _, _, _ => (.error "float division by zero", c, true)

/-- `AlphaVantageClient.get_etf_overview` (alpha_vantage_client.py:147-193). -/
def get_etf_overview (c : Client) (now : Int) (resp : ProviderOverviewResp)
    (symbol : String) : OverviewResult × Client × Bool :=
  if c.apiKey = false then (.error "API key not set", c, false)
  else
    match lookupFresh c.overviewCache symbol now 86400 with
    | some o => (.ok o, c, false)
    | none =>
      match resp with
      | .failure e => (.error e, c, true)
      | .errorOrEmpty =>
        (.error ("No overview data found for symbol " ++ symbol), c, true)
      | .overview nm ds sec pe dv mc =>
        let result : OverviewData :=
          { symbol := symbol,
            name := nm.getD "Unknown",
            description := ds.getD "No description available",
            sector := sec.getD "Various",
            pe_ratio := pe.getD "N/A",
            dividend_yield := dv.getD "N/A",
            market_cap := mc.getD "N/A",
            last_updated := now }
        (.ok result,
         { c with overviewCache :=
             dictInsert c.overviewCache symbol (now, result) },
         true)

/-- The request-issuing tail of `get_sector_performance` (the code after the
cache check, alpha_vantage_client.py:207-235). -/
def sector_performance_fetch (c : Client) (now : Int)
    (resp : ProviderSectorResp) : SectorResult × Client × Bool :=
  match resp with
  | .failure e => (.error e, c, true)
  | .noRankA => (.error "No sector performance data available", c, true)
  | .ranks secs =>
    let result : SectorData := { sectors := secs, last_updated := now }
    (.ok result, { c with sectorCache := some (now, result) }, true)

/-- `AlphaVantageClient.get_sector_performance` (alpha_vantage_client.py:195-235). -/
def get_sector_performance (c : Client) (now : Int)
    (resp : ProviderSectorResp) : SectorResult × Client × Bool :=
  if c.apiKey = false then (.error "API key not set", c, false)
  else
    match c.sectorCache with
    | some (t, d) =>
      if now - t < 21600 then (.ok d, c, false)
      else sector_performance_fetch c now resp
    | none => sector_performance_fetch c now resp

/-! ## ETF analysis (`analyze_etf_for_investment`, alpha_vantage_client.py:237-301) -/

/-- The analysis dict built on success. -/
structure Analysis where
  symbol : String
  current_price : Rat
  performance : List (String × HorizonEntry)
  risk_score : Int
  volatility : Rat
  risk_match : Bool
  recommendation : String
deriving DecidableEq

/-- `analyze_etf_for_investment` returns either the analysis dict or an error
dict `{"symbol": ..., "error": ...}`. -/
inductive AnalysisResult where
  | ok (a : Analysis)
  | error (symbol : String) (msg : String)
deriving DecidableEq

/-- Python `max(xs)` over a nonempty list (0 on `[]`, unreachable: the source
guards with `if not performances`). -/
def maxList : List Rat → Rat
  | [] => 0
  | h :: t => t.foldl max h

/-- Python `min(xs)` over a nonempty list (0 on `[]`, unreachable). -/
def minList : List Rat → Rat
  | [] => 0
  | h :: t => t.foldl min h

/-- The list comprehension at alpha_vantage_client.py:259-260: the
`price_change_percent` values of exactly the horizons that carry one,
in dict iteration order. -/
def valsOf (m : PerfMetrics) : List Rat :=
  m.performance.filterMap fun p =>
    match p.2 with
    | .ok v _ => some v
    | .err _ => none

/-- The `risk_match` if/elif chain (alpha_vantage_client.py:274-280):
low matches score ≤ 4, medium matches 3 < score ≤ 7, high matches score > 6. -/
def riskMatch (risk_tolerance : String) (risk_score : Int) : Bool :=
  if risk_tolerance = "low" ∧ risk_score ≤ 4 then true
  else if risk_tolerance = "medium" ∧ 3 < risk_score ∧ risk_score ≤ 7 then true
  else if risk_tolerance = "high" ∧ 6 < risk_score then true
  else false

/-- The body of `analyze_etf_for_investment` after the two fetches
(alpha_vantage_client.py:252-301), as a function of the fetch results.
The error precedence mirrors `metrics.get("error") or price_data.get("error")`.
The recommendation mirrors the truthiness test `if yearly_performance:`
(a missing, error-record, or exactly-zero yearly change leaves `"hold"`). -/
def analyze_core (metrics : PerfResult) (price_data : QuoteResult)
    (symbol risk_tolerance : String) : AnalysisResult :=
  match metrics, price_data with
  | .error e, _ => .error symbol e
  | .ok _, .error e => .error symbol e
  | .ok m, .ok q =>
    let performances := valsOf m
    if performances = [] then .error symbol "Insufficient performance data"
    else
      let volatility := maxList performances - minList performances
      let risk_score := min 10 (max 1 (pyRound (volatility / 5)))
      let rm := riskMatch risk_tolerance risk_score
      let recommendation :=
        match List.lookup "1yr" m.performance with
        | some (.ok p _) =>
          if p ≠ 0 then
            if p > 15 ∧ rm = true then "buy"
            else if p < -10 then "avoid"
            else "hold"
          else "hold"
        | _ => "hold"
      .ok { symbol := symbol, current_price := q.price,
            performance := m.performance, risk_score := risk_score,
            volatility := pyRound2 volatility, risk_match := rm,
            recommendation := recommendation }

/-- `analyze_etf_for_investment`: fetches metrics, then the price (threading
the cache), and runs the analysis body. -/
def analyze_etf_for_investment (c : Client) (now : Int)
    (perfResp : ProviderPerfResp) (quoteResp : ProviderQuoteResp)
    (symbol risk_tolerance : String) : AnalysisResult × Client :=
  let pm := get_performance_metrics c now perfResp symbol
  let pd := get_stock_price pm.2.1 now quoteResp symbol
  (analyze_core pm.1 pd.1 symbol risk_tolerance, pd.2.1)

/-! ## Portfolio evaluation (`financial_data_agent.py:334-374`)

`FinancialDataAgent.evaluate_portfolio_symbols` delegates each per-symbol
analysis to `AlphaVantageClient.analyze_etf_for_investment`; `env` supplies the
provider responses for each symbol's two fetches. -/

structure PortfolioMetrics where
  total_symbols : Nat
  valid_symbols : Nat
  avg_volatility : Rat
  risk_match_percentage : Rat
  diversification_score : Nat
deriving DecidableEq

structure PortfolioEval where
  symbol_evaluations : List (String × AnalysisResult)
  portfolio_metrics : PortfolioMetrics

/-- The `for symbol in symbols` loop of `evaluate_portfolio_symbols`,
accumulating `results`, `valid_symbols`, `total_volatility` and
`matched_risk_count`. -/
def evalGo (now : Int) (env : String → ProviderPerfResp × ProviderQuoteResp)
    (risk_tolerance : String) :
    List String → Client → List (String × AnalysisResult) → List String →
    Rat → Nat →
    List (String × AnalysisResult) × List String × Rat × Nat × Client
  | [], c, res, val, tv, mc => (res, val, tv, mc, c)
  | s :: rest, c, res, val, tv, mc =>
    let r := analyze_etf_for_investment c now (env s).1 (env s).2 s
      risk_tolerance
    let res2 := dictInsert res s r.1
    match r.1 with
    | .ok a =>
      evalGo now env risk_tolerance rest r.2 res2 (val ++ [s])
        (tv + a.volatility) (mc + (if a.risk_match then 1 else 0))
    | .error _ _ => evalGo now env risk_tolerance rest r.2 res2 val tv mc

/-- `evaluate_portfolio_symbols` (financial_data_agent.py:334-374). -/
def evaluate_portfolio_symbols (c : Client) (now : Int)
    (env : String → ProviderPerfResp × ProviderQuoteResp)
    (symbols : List String) (risk_tolerance : String) :
    PortfolioEval × Client :=
  let g := evalGo now env risk_tolerance symbols c [] [] 0 0
  let results := g.1
  let val := g.2.1
  let tv := g.2.2.1
  let mc := g.2.2.2.1
  let pm : PortfolioMetrics :=
    { total_symbols := symbols.length
      valid_symbols := val.length
      avg_volatility :=
        if val ≠ [] then pyRound2 (tv / (val.length : Rat)) else 0
      risk_match_percentage :=
        if val ≠ [] then pyRound2 ((mc : Rat) / (val.length : Rat) * 100) else 0
      diversification_score := if val ≠ [] then min 10 val.length else 0 }
  ({ symbol_evaluations := results, portfolio_metrics := pm }, g.2.2.2.2)

/-- Specification-side mirror of the loop: the sequence of per-call analysis
results, in call order, with the client state threaded exactly as in
`evalGo`. -/
def analysesList (now : Int)
    (env : String → ProviderPerfResp × ProviderQuoteResp)
    (risk_tolerance : String) : List String → Client → List AnalysisResult
  | [], _ => []
  | s :: rest, c =>
    let r := analyze_etf_for_investment c now (env s).1 (env s).2 s
      risk_tolerance
    r.1 :: analysesList now env risk_tolerance rest r.2

/-- The successful analyses among a list of analysis results. -/
def okAnalyses (l : List AnalysisResult) : List Analysis :=
  l.filterMap fun r =>
    match r with
    | .ok a => some a
    | .error _ _ => none

/-! ## JSON values and `json.loads`

`extract_json_response` (main.py:175-189) and the inline extraction in
`process_feedback` (workflow.py:483-502) slice between the first `{` and the
last `}` and call `json.loads`.  The parser below models `json.loads` in
strict mode over exact rationals: a value of the standard JSON grammar must
consume the whole input up to trailing whitespace.  (Python's acceptance of
`NaN`/`Infinity` and its surrogate-pair recombination in `\u` escapes are not
modelled; no claim depends on them.)  Texts are `List Char`. -/

inductive Json where
  | null
  | bool (b : Bool)
  | num (q : Rat)
  | str (s : List Char)
  | arr (elems : List Json)
  | obj (members : List (List Char × Json))

/-- JSON whitespace: space, tab, newline, carriage return. -/
def isJsonWs (c : Char) : Bool :=
  c = ' ' ∨ c = '\t' ∨ c = '\n' ∨ c = '\r'

def skipWs : List Char → List Char
  | [] => []
  | c :: t => if isJsonWs c then skipWs t else c :: t

def escChar (e : Char) : Option Char :=
  if e = '"' then some '"'
  else if e = '\\' then some '\\'
  else if e = '/' then some '/'
  else if e = 'b' then some (Char.ofNat 8)
  else if e = 'f' then some (Char.ofNat 12)
  else if e = 'n' then some '\n'
  else if e = 'r' then some '\r'
  else if e = 't' then some '\t'
  else none

def hexVal (c : Char) : Option Nat :=
  if '0' ≤ c ∧ c ≤ '9' then some (c.toNat - 48)
  else if 'a' ≤ c ∧ c ≤ 'f' then some (c.toNat - 87)
  else if 'A' ≤ c ∧ c ≤ 'F' then some (c.toNat - 55)
  else none

/-- Parse the body of a JSON string after its opening quote; returns the
decoded characters and the remainder after the closing quote. -/
def parseStringBody : List Char → Option (List Char × List Char)
  | [] => none
  | '"' :: t => some ([], t)
  | '\\' :: 'u' :: a :: b :: c :: d :: t =>
    match hexVal a, hexVal b, hexVal c, hexVal d with
    | some ha, some hb, some hc, some hd =>
      match parseStringBody t with
      | some (s, rest) =>
        some (Char.ofNat (((ha * 16 + hb) * 16 + hc) * 16 + hd) :: s, rest)
      | none => none
    | _, _, _, _ => none
  | '\\' :: e :: t =>
    match escChar e with
    | some ec =>
      match parseStringBody t with
      | some (s, rest) => some (ec :: s, rest)
      | none => none
    | none => none
  | c :: t =>
    if c.toNat < 32 then none
    else
      match parseStringBody t with
      | some (s, rest) => some (c :: s, rest)
      | none => none

def digitVal (c : Char) : Option Nat :=
  if '0' ≤ c ∧ c ≤ '9' then some (c.toNat - 48) else none

/-- Split off a maximal run of leading decimal digits. -/
def takeDigits : List Char → List Nat × List Char
  | [] => ([], [])
  | c :: t =>
    match digitVal c with
    | some d =>
      let r := takeDigits t
      (d :: r.1, r.2)
    | none => ([], c :: t)

def digitsToNat (ds : List Nat) : Nat :=
  ds.foldl (fun a d => a * 10 + d) 0

/-- Parse a JSON number (sign, integer part without needless leading zeros,
optional fraction, optional exponent) into an exact rational. -/
def parseNumber (s : List Char) : Option (Rat × List Char) :=
  let sgn : Bool × List Char :=
    match s with
    | '-' :: t => (true, t)
    | _ => (false, s)
  match takeDigits sgn.2 with
  | ([], _) => none
  | (d0 :: ds, s2) =>
    if d0 = 0 ∧ ds ≠ [] then none
    else
      let intPart : Rat := (digitsToNat (d0 :: ds) : Rat)
      let fracStep : Option (Rat × List Char) :=
        match s2 with
        | '.' :: t2 =>
          match takeDigits t2 with
          | ([], _) => none
          | (fds, s3) =>
            some (intPart + (digitsToNat fds : Rat) / ((10 : Rat) ^ fds.length),
                  s3)
        | _ => some (intPart, s2)
      match fracStep with
      | none => none
      | some (mant, s3) =>
        let expStep : Option (Rat × List Char) :=
          match s3 with
          | 'e' :: t3 =>
            match t3 with
            | '-' :: t4 =>
              match takeDigits t4 with
              | ([], _) => none
              | (eds, s4) => some (mant / ((10 : Rat) ^ digitsToNat eds), s4)
            | '+' :: t4 =>
              match takeDigits t4 with
              | ([], _) => none
              | (eds, s4) => some (mant * ((10 : Rat) ^ digitsToNat eds), s4)
            | _ =>
              match takeDigits t3 with
              | ([], _) => none
              | (eds, s4) => some (mant * ((10 : Rat) ^ digitsToNat eds), s4)
          | 'E' :: t3 =>
            match t3 with
            | '-' :: t4 =>
              match takeDigits t4 with
              | ([], _) => none
              | (eds, s4) => some (mant / ((10 : Rat) ^ digitsToNat eds), s4)
            | '+' :: t4 =>
              match takeDigits t4 with
              | ([], _) => none
              | (eds, s4) => some (mant * ((10 : Rat) ^ digitsToNat eds), s4)
            | _ =>
              match takeDigits t3 with
              | ([], _) => none
              | (eds, s4) => some (mant * ((10 : Rat) ^ digitsToNat eds), s4)
          | _ => some (mant, s3)
        match expStep with
        | none => none
        | some (v, s4) => some (if sgn.1 then -v else v, s4)

mutual

/-- Parse one JSON value; `fuel` bounds the nesting depth. -/
def parseValue : Nat → List Char → Option (Json × List Char)
  | 0, _ => none
  | fuel + 1, s0 =>
    match skipWs s0 with
    | '{' :: t =>
      match skipWs t with
      | '}' :: r => some (.obj [], r)
      | t1 =>
        match parseMembers fuel t1 [] with
        | some (kvs, r) => some (.obj kvs, r)
        | none => none
    | '[' :: t =>
      match skipWs t with
      | ']' :: r => some (.arr [], r)
      | t1 =>
        match parseElements fuel t1 [] with
        | some (vs, r) => some (.arr vs, r)
        | none => none
    | '"' :: t =>
      match parseStringBody t with
      | some (cs, r) => some (.str cs, r)
      | none => none
    | 't' :: 'r' :: 'u' :: 'e' :: r => some (.bool true, r)
    | 'f' :: 'a' :: 'l' :: 's' :: 'e' :: r => some (.bool false, r)
    | 'n' :: 'u' :: 'l' :: 'l' :: r => some (.null, r)
    | s1 =>
      match parseNumber s1 with
      | some (q, r) => some (.num q, r)
      | none => none

/-- Parse the members of a nonempty object (after the opening brace and
leading whitespace); duplicate keys overwrite, as in a Python dict. -/
def parseMembers : Nat → List Char → List (List Char × Json) →
    Option (List (List Char × Json) × List Char)
  | 0, _, _ => none
  | fuel + 1, s, acc =>
    match skipWs s with
    | '"' :: t =>
      match parseStringBody t with
      | none => none
      | some (key, r1) =>
        match skipWs r1 with
        | ':' :: r2 =>
          match parseValue fuel r2 with
          | none => none
          | some (v, r3) =>
            match skipWs r3 with
            | ',' :: r4 => parseMembers fuel r4 (dictInsert acc key v)
            | '}' :: r4 => some (dictInsert acc key v, r4)
            | _ => none
        | _ => none
    | _ => none

/-- Parse the elements of a nonempty array (after the opening bracket and
leading whitespace). -/
def parseElements : Nat → List Char → List Json →
    Option (List Json × List Char)
  | 0, _, _ => none
  | fuel + 1, s, acc =>
    match parseValue fuel s with
    | none => none
    | some (v, r) =>
      match skipWs r with
      | ',' :: r2 => parseElements fuel r2 (acc ++ [v])
      | ']' :: r2 => some (acc ++ [v], r2)
      | _ => none

end

/-- Model of `json.loads`: parse one value and require that nothing but
whitespace remains. -/
def json_loads (s : List Char) : Option Json :=
  match parseValue (s.length + 1) s with
  | some (v, rest) => if skipWs rest = [] then some v else none
  | none => none

/-- Python `str.find`: index of the first occurrence, or -1. -/
def findIdxFrom (c : Char) : List Char → Option Nat
  | [] => none
  | x :: t => if x = c then some 0 else (findIdxFrom c t).map (· + 1)

def pyFind (s : List Char) (c : Char) : Int :=
  match findIdxFrom c s with
  | some i => (i : Int)
  | none => -1

/-- Python `str.rfind`: index of the last occurrence, or -1. -/
def pyRFind (s : List Char) (c : Char) : Int :=
  match findIdxFrom c s.reverse with
  | some i => (s.length : Int) - 1 - (i : Int)
  | none => -1

/-- Python slice `s[i:j]` for the nonnegative indices produced at the call
site. -/
def pySlice (s : List Char) (i j : Int) : List Char :=
  (s.drop i.toNat).take (j - i).toNat

/-- `extract_json_response` (main.py:175-189): slice from the first `{` to the
last `}` inclusive and parse; `None` when the braces are absent or out of
order (the raised `ValueError`) or when `json.loads` fails. -/
def extract_json_response (s : List Char) : Option Json :=
  let json_start := pyFind s '{'
  let json_end := pyRFind s '}' + 1
  if 0 ≤ json_start ∧ json_start < json_end then
    json_loads (pySlice s json_start json_end)
  else none

/-- The fixed default returned by `process_feedback` when extraction fails
(workflow.py:497-502). -/
def default_feedback_analysis : Json :=
  .obj
    [("feedback_analysis".toList, .str "Unable to analyze feedback properly.".toList),
     ("risk_adjustment".toList, .str "no change".toList),
     ("preference_changes".toList, .arr []),
     ("strategy_adjustments".toList, .arr [])]

/-- The extraction tail of `process_feedback` (workflow.py:483-502): the
inline first-brace/last-brace extraction is the same algorithm as
`extract_json_response`; any failure inside the `try` block yields the fixed
default analysis. -/
def process_feedback (feedback_response : List Char) : Json :=
  match extract_json_response feedback_response with
  | some analysis => analysis
  | none => default_feedback_analysis

/-- Field access on a parsed JSON object. -/
def jsonGet (j : Json) (key : String) : Option Json :=
  match j with
  | .obj kvs => List.lookup key.toList kvs
  | _ => none

/-- All `price_change_percent` values of a metrics record lie on the
two-decimal grid (they are produced by `round(..., 2)`). -/
def MetricsGrid (m : PerfMetrics) : Prop :=
  ∀ v ∈ valsOf m, ∃ k : Int, v = (k : Rat) / 100

/-! ## Concrete run data used by witnesses and counterexamples -/

/-- A daily series whose four horizon changes are exactly 2%, -1%, 3% and
18%: the current close 10227591 divided by 1.02, 0.99, 1.03 and 1.18 is an
integer in each case. -/
def c2_series : List (Int × Rat) :=
  [(0, 10227591), (-30, 10027050), (-90, 10330900),
   (-180, 9929700), (-365, 8667450)]

/-- The metrics computed from `c2_series` at time 0. -/
def c2_metrics : PerfMetrics :=
  { symbol := "SCHB", current_price := 10227591,
    performance :=
      [("1mo", .ok 2 (-30)), ("3mo", .ok (-1) (-90)),
       ("6mo", .ok 3 (-180)), ("1yr", .ok 18 (-365))] }

/-- The analysis of `c2_series` with a quote of 42 and tolerance "low":
volatility 18 - (-1) = 19 over all four horizons, risk score
round(19/5) = 4, risk_match true for "low", recommendation "buy". -/
def c2_analysis : Analysis :=
  { symbol := "SCHB", current_price := 42,
    performance := c2_metrics.performance,
    risk_score := 4, volatility := 19, risk_match := true,
    recommendation := "buy" }

/-- A two-symbol provider environment: symbol "A" has horizon changes 0% and
0.01%, any other symbol 0% and 0.02%. -/
def c7_env : String → ProviderPerfResp × ProviderQuoteResp := fun s =>
  if s = "A" then
    (.series [(0, 10001), (-30, 10001), (-90, 10000)], .quote 100 "0%" 1)
  else
    (.series [(0, 10002), (-30, 10002), (-90, 10000)], .quote 100 "0%" 1)

def c7_metricsA : PerfMetrics :=
  { symbol := "A", current_price := 10001,
    performance :=
      [("1mo", .ok 0 (-30)), ("3mo", .ok (1/100) (-90)),
       ("6mo", .err "No data available within 7 days of target date"),
       ("1yr", .err "No data available within 7 days of target date")] }

def c7_metricsB : PerfMetrics :=
  { symbol := "B", current_price := 10002,
    performance :=
      [("1mo", .ok 0 (-30)), ("3mo", .ok (1/50) (-90)),
       ("6mo", .err "No data available within 7 days of target date"),
       ("1yr", .err "No data available within 7 days of target date")] }

def c7_quote (s : String) : FinancialQuote :=
  { symbol := s, price := 100, change_percent := "0%", volume := 1,
    last_updated := 0 }

/-- Symbol "A"'s analysis: volatility 0.01, risk score 1, no medium match. -/
def c7_analysisA : Analysis :=
  { symbol := "A", current_price := 100,
    performance := c7_metricsA.performance, risk_score := 1,
    volatility := 1/100, risk_match := false, recommendation := "hold" }

/-- Symbol "B"'s analysis: volatility 0.02, risk score 1, no medium match. -/
def c7_analysisB : Analysis :=
  { symbol := "B", current_price := 100,
    performance := c7_metricsB.performance, risk_score := 1,
    volatility := 1/50, risk_match := false, recommendation := "hold" }

def c7_client0 : Client := ⟨true, [], [], [], none⟩

def c7_clientA : Client :=
  ⟨true, [("A", 0, c7_quote "A")], [("A", 0, c7_metricsA)], [], none⟩

def c7_clientB : Client :=
  ⟨true, [("A", 0, c7_quote "A"), ("B", 0, c7_quote "B")],
   [("A", 0, c7_metricsA), ("B", 0, c7_metricsB)], [], none⟩

/-- The metrics produced at time 0 from the daily series
`{day 0: 110, day -30: 100}`: a single valid horizon with a 10% change. -/
def c5_metrics : PerfMetrics :=
  { symbol := "BND", current_price := 110,
    performance :=
      [("1mo", .ok 10 (-30)),
       ("3mo", .err "No data available within 7 days of target date"),
       ("6mo", .err "No data available within 7 days of target date"),
       ("1yr", .err "No data available within 7 days of target date")] }

/-- The analysis produced for a client with an empty cache at time 0, the
daily series `{day 0: 120, day -30: 120, day -90: 100}` and a quote of 100:
1mo change 0%, 3mo change 20%, volatility 20, risk score 4. -/
def c1_analysis (tol : String) : Analysis :=
  { symbol := "VTI", current_price := 100,
    performance :=
      [("1mo", .ok 0 (-30)), ("3mo", .ok 20 (-90)),
       ("6mo", .err "No data available within 7 days of target date"),
       ("1yr", .err "No data available within 7 days of target date")],
    risk_score := 4, volatility := 20, risk_match := riskMatch tol 4,
    recommendation := "hold" }

/-! ## Evaluation lemmas for Python rounding -/

theorem ratFloor_eq_intFloor (x : Rat) : x.floor = ⌊x⌋ := by
  rw [Rat.floor_def, Rat.floor_def']

theorem pyRound_floor_form (x : Rat) :
    pyRound x =
      if x - (⌊x⌋ : Rat) < 1/2 then ⌊x⌋
      else if x - (⌊x⌋ : Rat) > 1/2 then ⌊x⌋ + 1
      else if ⌊x⌋ % 2 = 0 then ⌊x⌋ else ⌊x⌋ + 1 := by
  unfold pyRound
  rw [ratFloor_eq_intFloor]

theorem pyRound_lt_half {x : Rat} {f : Int} (h0 : (f : Rat) ≤ x)
    (h1 : x < (f : Rat) + 1/2) : pyRound x = f := by
  have hf : ⌊x⌋ = f := Int.floor_eq_iff.mpr ⟨h0, by linarith⟩
  rw [pyRound_floor_form, hf, if_pos (by linarith)]

theorem pyRound_gt_half {x : Rat} {f : Int} (h0 : (f : Rat) + 1/2 < x)
    (h1 : x < (f : Rat) + 1) : pyRound x = f + 1 := by
  have hf : ⌊x⌋ = f := Int.floor_eq_iff.mpr ⟨by linarith, by linarith⟩
  rw [pyRound_floor_form, hf, if_neg (by linarith),
    if_pos (by linarith)]

theorem pyRound_half {x : Rat} {f : Int} (h : x = (f : Rat) + 1/2) :
    pyRound x = if f % 2 = 0 then f else f + 1 := by
  have hf : ⌊x⌋ = f :=
    Int.floor_eq_iff.mpr ⟨by rw [h]; linarith, by rw [h]; linarith⟩
  rw [pyRound_floor_form, hf, if_neg (by rw [h]; linarith),
    if_neg (by rw [h]; linarith)]

theorem pyRound_intCast (k : Int) : pyRound (k : Rat) = k :=
  pyRound_lt_half (le_refl _) (by linarith)

theorem pyRound2_eval {x : Rat} {k : Int} (h : pyRound (x * 100) = k) :
    pyRound2 x = (k : Rat) / 100 := by
  rw [pyRound2, h]

/-- `round(x, 2)` is the identity on rationals that already have at most two
decimal places. -/
theorem pyRound2_grid (k : Int) : pyRound2 ((k : Rat) / 100) = (k : Rat) / 100 := by
  rw [pyRound2, show (k : Rat) / 100 * 100 = (k : Rat) from
    div_mul_cancel₀ _ (by norm_num), pyRound_intCast]

theorem pyRound2_eq {x : Rat} (k : Int) (h : x * 100 = (k : Rat)) :
    pyRound2 x = (k : Rat) / 100 := by
  rw [pyRound2, h, pyRound_intCast]

/-! ## Dictionary and cache lemmas -/

theorem lookup_dictInsert_self {κ α : Type} [DecidableEq κ] [BEq κ] [LawfulBEq κ]
    (l : List (κ × α)) (k : κ) (v : α) :
    List.lookup k (dictInsert l k v) = some v := by
  induction l with
  | nil => simp [dictInsert, List.lookup]
  | cons h t ih =>
    obtain ⟨k0, v0⟩ := h
    by_cases hk : k0 = k
    · simp [dictInsert, hk, List.lookup]
    · simp only [dictInsert, if_neg hk, List.lookup]
      rw [show (k == k0) = false from beq_eq_false_iff_ne.mpr (Ne.symm hk)]
      exact ih

theorem lookup_mem {κ α : Type} [BEq κ] [LawfulBEq κ]
    {l : List (κ × α)} {k : κ} {v : α} (h : List.lookup k l = some v) :
    (k, v) ∈ l := by
  induction l with
  | nil => simp [List.lookup] at h
  | cons hd t ih =>
    obtain ⟨k0, v0⟩ := hd
    rw [List.lookup] at h
    by_cases hk : k = k0
    · subst hk
      rw [show (k == k) = true from beq_self_eq_true k] at h
      simp at h
      simp [h]
    · rw [show (k == k0) = false from beq_eq_false_iff_ne.mpr hk] at h
      simp only [List.mem_cons]
      exact Or.inr (ih h)

theorem lookupFresh_dictInsert_self {α : Type}
    (cache : List (String × Int × α)) (k : String) (now t ttl : Int) (v : α)
    (h : now - t < ttl) :
    lookupFresh (dictInsert cache k (t, v)) k now ttl = some v := by
  rw [lookupFresh, lookup_dictInsert_self]
  simp [h]

/-- A key with no fresh entry at `t1` still has none at any later `t2`. -/
theorem lookupFresh_mono {α : Type} {cache : List (String × Int × α)}
    {k : String} {t1 t2 ttl : Int} (h12 : t1 ≤ t2)
    (h : lookupFresh cache k t1 ttl = none) :
    lookupFresh cache k t2 ttl = none := by
  unfold lookupFresh at h ⊢
  cases hl : List.lookup k cache with
  | none => rfl
  | some td =>
    obtain ⟨t, d⟩ := td
    rw [hl] at h
    simp only at h ⊢
    by_cases hc : t1 - t < ttl
    · rw [if_pos hc] at h; exact absurd h (by simp)
    · rw [if_neg (show ¬t2 - t < ttl by omega)]

theorem lookupFresh_mem {α : Type} {cache : List (String × Int × α)}
    {k : String} {now ttl : Int} {d : α}
    (h : lookupFresh cache k now ttl = some d) : ∃ t, (k, t, d) ∈ cache := by
  unfold lookupFresh at h
  cases hl : List.lookup k cache with
  | none => rw [hl] at h; exact absurd h (by simp)
  | some td =>
    obtain ⟨t, d0⟩ := td
    rw [hl] at h
    simp only at h
    by_cases hc : now - t < ttl
    · rw [if_pos hc] at h
      obtain rfl : d0 = d := by simpa using h
      exact ⟨t, lookup_mem hl⟩
    · rw [if_neg hc] at h; exact absurd h (by simp)

/-! ## `max`/`min` over nonempty lists -/

theorem foldl_max_mem (t : List Rat) : ∀ b : Rat, t.foldl max b ∈ b :: t := by
  induction t with
  | nil => intro b; simp
  | cons x t ih =>
    intro b
    have h := ih (max b x)
    simp only [List.foldl_cons]
    rcases List.mem_cons.mp h with he | ht
    · rcases max_choice b x with hm | hm
      · rw [he, hm]; exact List.mem_cons_self _ _
      · rw [he, hm]; exact List.mem_cons_of_mem _ (List.mem_cons_self _ _)
    · exact List.mem_cons_of_mem _ (List.mem_cons_of_mem _ ht)

theorem foldl_min_mem (t : List Rat) : ∀ b : Rat, t.foldl min b ∈ b :: t := by
  induction t with
  | nil => intro b; simp
  | cons x t ih =>
    intro b
    have h := ih (min b x)
    simp only [List.foldl_cons]
    rcases List.mem_cons.mp h with he | ht
    · rcases min_choice b x with hm | hm
      · rw [he, hm]; exact List.mem_cons_self _ _
      · rw [he, hm]; exact List.mem_cons_of_mem _ (List.mem_cons_self _ _)
    · exact List.mem_cons_of_mem _ (List.mem_cons_of_mem _ ht)

theorem maxList_mem {l : List Rat} (h : l ≠ []) : maxList l ∈ l := by
  cases l with
  | nil => exact absurd rfl h
  | cons b t => exact foldl_max_mem t b

theorem minList_mem {l : List Rat} (h : l ≠ []) : minList l ∈ l := by
  cases l with
  | nil => exact absurd rfl h
  | cons b t => exact foldl_min_mem t b

/-! ## `pyMinBy`: Python `min(xs, key=f)` selects the first minimal element -/

/-- `m` attains the minimal key over `xs`, and some occurrence of `m` in `xs`
is preceded only by elements with strictly larger keys: exactly the element
Python's `min(xs, key=f)` returns. -/
def isFirstArgmin (f : Int → Nat) (xs : List Int) (m : Int) : Prop :=
  (∀ x ∈ xs, f m ≤ f x) ∧ ∃ l r, xs = l ++ m :: r ∧ ∀ y ∈ l, f m < f y

theorem isFirstArgmin_mem {f : Int → Nat} {xs : List Int} {m : Int}
    (h : isFirstArgmin f xs m) : m ∈ xs := by
  obtain ⟨-, l, r, rfl, -⟩ := h
  simp

theorem pyMinBy_go_spec (f : Int → Nat) :
    ∀ (t : List Int) (b : Int),
      isFirstArgmin f (b :: t) (t.foldl (fun b x => if f x < f b then x else b) b) := by
  intro t
  induction t with
  | nil =>
    intro b
    exact ⟨by simp, [], [], rfl, by simp⟩
  | cons x t ih =>
    intro b
    by_cases hx : f x < f b
    · have h := ih x
      obtain ⟨hmin, l, r, hdec, hgt⟩ := h
      have hres : (x :: t).foldl (fun b x => if f x < f b then x else b) b
          = t.foldl (fun b x => if f x < f b then x else b) x := by
        simp [List.foldl_cons, if_pos hx]
      rw [hres]
      set res := t.foldl (fun b x => if f x < f b then x else b) x with hr
      refine ⟨?_, b :: l, r, ?_, ?_⟩
      · intro y hy
        rcases List.mem_cons.mp hy with rfl | hy2
        · have : f res ≤ f x := hmin x (by simp)
          omega
        · exact hmin y hy2
      · rw [List.cons_append, ← hdec]
      · intro y hy
        rcases List.mem_cons.mp hy with rfl | hy2
        · have : f res ≤ f x := hmin x (by simp)
          omega
        · exact hgt y hy2
    · have h := ih b
      obtain ⟨hmin, l, r, hdec, hgt⟩ := h
      have hres : (x :: t).foldl (fun b x => if f x < f b then x else b) b
          = t.foldl (fun b x => if f x < f b then x else b) b := by
        simp [List.foldl_cons, if_neg hx]
      rw [hres]
      set res := t.foldl (fun b x => if f x < f b then x else b) b with hr
      have hminb : f res ≤ f b := hmin b (by simp)
      have hminx : ∀ y ∈ b :: x :: t, f res ≤ f y := by
        intro y hy
        rcases List.mem_cons.mp hy with rfl | hy2
        · exact hminb
        rcases List.mem_cons.mp hy2 with rfl | hy3
        · omega
        · exact hmin y (by simp [hy3])
      cases l with
      | nil =>
        simp only [List.nil_append] at hdec
        injection hdec with hb ht
        exact ⟨hminx, [], x :: t, by rw [hb]; rfl, by simp⟩
      | cons lb l2 =>
        simp only [List.cons_append] at hdec
        injection hdec with hb ht
        refine ⟨hminx, b :: x :: l2, r, by rw [ht]; rfl, ?_⟩
        intro y hy
        rcases List.mem_cons.mp hy with rfl | hy2
        · exact hgt y (by simp [hb])
        rcases List.mem_cons.mp hy2 with rfl | hy3
        · have hgb : f res < f lb := hgt lb (by simp)
          have hfb : f b = f lb := by rw [hb]
          omega
        · exact hgt y (by simp [hy3])

theorem pyMinBy_spec (f : Int → Nat) {xs : List Int} (h : xs ≠ []) :
    ∃ m, pyMinBy f xs = some m ∧ isFirstArgmin f xs m := by
  cases xs with
  | nil => exact absurd rfl h
  | cons b t => exact ⟨_, rfl, pyMinBy_go_spec f t b⟩

/-! ## `sortDesc` membership -/

theorem mem_insertDesc {x a : Int} : ∀ {l : List Int},
    a ∈ insertDesc x l ↔ a = x ∨ a ∈ l := by
  intro l
  induction l with
  | nil => simp [insertDesc]
  | cons y t ih =>
    by_cases hy : y ≤ x
    · simp [insertDesc, if_pos hy]
    · simp only [insertDesc, if_neg hy, List.mem_cons, ih]
      tauto

theorem mem_sortDesc {a : Int} : ∀ {l : List Int}, a ∈ sortDesc l ↔ a ∈ l := by
  intro l
  induction l with
  | nil => simp [sortDesc]
  | cons x t ih => simp [sortDesc, mem_insertDesc, ih]

theorem insertDesc_ne_nil (x : Int) (l : List Int) : insertDesc x l ≠ [] := by
  cases l with
  | nil => simp [insertDesc]
  | cons y t =>
    by_cases hy : y ≤ x <;> simp [insertDesc, hy]

theorem sortDesc_eq_nil_iff {l : List Int} : sortDesc l = [] ↔ l = [] := by
  cases l with
  | nil => simp [sortDesc]
  | cons x t =>
    simp only [sortDesc]
    exact ⟨fun h => absurd h (insertDesc_ne_nil _ _), fun h => by simp at h⟩

/-! ## Per-operation cache lemmas -/

theorem get_stock_price_error_inv {c : Client} {now : Int}
    {resp : ProviderQuoteResp} {s e : String}
    (h : (get_stock_price c now resp s).1 = .error e) :
    (get_stock_price c now resp s).2.1 = c ∧
    (c.apiKey = true → lookupFresh c.priceCache s now 3600 = none ∧
      (get_stock_price c now resp s).2.2 = true) := by
  unfold get_stock_price at h ⊢
  by_cases hk : c.apiKey = false
  · simp [hk]
  · simp only [if_neg hk] at h ⊢
    split at h
    next q heq => simp at h
    next heq =>
      simp only [heq]
      split at h <;> simp_all

theorem get_performance_metrics_error_inv {c : Client} {now : Int}
    {resp : ProviderPerfResp} {s e : String}
    (h : (get_performance_metrics c now resp s).1 = .error e) :
    (get_performance_metrics c now resp s).2.1 = c ∧
    (c.apiKey = true → lookupFresh c.metricsCache s now 21600 = none ∧
      (get_performance_metrics c now resp s).2.2 = true) := by
  unfold get_performance_metrics at h ⊢
  by_cases hk : c.apiKey = false
  · simp [hk]
  · simp only [if_neg hk] at h ⊢
    split at h
    next m heq => simp at h
    next heq =>
      simp only [heq]
      split at h
      next e2 => simp_all
      next => simp_all
      next ts =>
        split at h
        next hs => simp_all
        next d0 drest hs =>
          split at h
          next hc => simp_all
          next cur hc =>
            split at h
            next e1 e2 e3 e4 h30 h90 h180 h365 => simp_all
            next => simp_all

theorem get_etf_overview_error_inv {c : Client} {now : Int}
    {resp : ProviderOverviewResp} {s e : String}
    (h : (get_etf_overview c now resp s).1 = .error e) :
    (get_etf_overview c now resp s).2.1 = c := by
  unfold get_etf_overview at h ⊢
  by_cases hk : c.apiKey = false
  · simp [hk]
  · simp only [if_neg hk] at h ⊢
    split at h
    next o heq => simp at h
    next heq => split at h <;> simp_all

theorem get_sector_performance_error_inv {c : Client} {now : Int}
    {resp : ProviderSectorResp} {e : String}
    (h : (get_sector_performance c now resp).1 = .error e) :
    (get_sector_performance c now resp).2.1 = c := by
  unfold get_sector_performance at h ⊢
  by_cases hk : c.apiKey = false
  · simp [hk]
  · simp only [if_neg hk] at h ⊢
    split at h
    next t d hsc =>
      split at h
      next hf => simp at h
      next hf =>
        rw [if_neg hf]
        unfold sector_performance_fetch at h ⊢
        split at h <;> simp_all
    next hsc =>
      unfold sector_performance_fetch at h ⊢
      split at h <;> simp_all

/-- A cache miss always issues a provider request (given an api key). -/
theorem get_stock_price_miss_requests {c : Client} {now : Int}
    (resp : ProviderQuoteResp) {s : String} (hk : c.apiKey = true)
    (hm : lookupFresh c.priceCache s now 3600 = none) :
    (get_stock_price c now resp s).2.2 = true := by
  unfold get_stock_price
  simp only [hk, if_neg (by simp : ¬(true = false)), hm]
  cases resp <;> simp

theorem get_performance_metrics_miss_requests {c : Client} {now : Int}
    (resp : ProviderPerfResp) {s : String} (hk : c.apiKey = true)
    (hm : lookupFresh c.metricsCache s now 21600 = none) :
    (get_performance_metrics c now resp s).2.2 = true := by
  unfold get_performance_metrics
  simp only [hk, if_neg (by simp : ¬(true = false)), hm]
  cases resp with
  | failure e => simp
  | noData => simp
  | series ts =>
    simp only
    cases hs : sortDesc (ts.map Prod.fst) with
    | nil => simp
    | cons d0 drest =>
      simp only
      cases hc : List.lookup d0 ts with
      | none => simp
      | some cur =>
        simp only
        cases h30 : horizonEntry now ts (d0 :: drest) cur 30 <;>
          cases h90 : horizonEntry now ts (d0 :: drest) cur 90 <;>
            cases h180 : horizonEntry now ts (d0 :: drest) cur 180 <;>
              cases h365 : horizonEntry now ts (d0 :: drest) cur 365 <;>
                simp

/-! ## Claim theorems -/

/-- Claim C9: with no API credential configured, each of the four client
operations immediately returns the error value "API key not set", leaves the
client (and its cache) unchanged, and issues no provider request. -/
theorem claim_C9 (c : Client) (now : Int) (qr : ProviderQuoteResp)
    (pr : ProviderPerfResp) (ovr : ProviderOverviewResp)
    (sr : ProviderSectorResp) (s : String) (h : c.apiKey = false) :
    get_stock_price c now qr s = (.error "API key not set", c, false) ∧
    get_performance_metrics c now pr s = (.error "API key not set", c, false) ∧
    get_etf_overview c now ovr s = (.error "API key not set", c, false) ∧
    get_sector_performance c now sr = (.error "API key not set", c, false) := by
  refine ⟨?_, ?_, ?_, ?_⟩ <;>
    simp [get_stock_price, get_performance_metrics, get_etf_overview,
      get_sector_performance, h]

/-- Witness for C9 at a concrete keyless client. -/
theorem claim_C9_witness :
    get_stock_price ⟨false, [], [], [], none⟩ 0 .noQuote "SPY"
      = (.error "API key not set", ⟨false, [], [], [], none⟩, false) ∧
    get_performance_metrics ⟨false, [], [], [], none⟩ 0 .noData "SPY"
      = (.error "API key not set", ⟨false, [], [], [], none⟩, false) ∧
    get_etf_overview ⟨false, [], [], [], none⟩ 0 .errorOrEmpty "SPY"
      = (.error "API key not set", ⟨false, [], [], [], none⟩, false) ∧
    get_sector_performance ⟨false, [], [], [], none⟩ 0 .noRankA
      = (.error "API key not set", ⟨false, [], [], [], none⟩, false) :=
  claim_C9 ⟨false, [], [], [], none⟩ 0 .noQuote .noData .errorOrEmpty .noRankA
    "SPY" rfl

/-- Claim C6: two `get_stock_price` calls within one hour, where the first
misses the cache and the provider answers with a quote, issue exactly one
provider request: the first call requests and caches, the second is served
from that cache entry and returns the identical quote value. -/
theorem claim_C6 (c : Client) (s : String) (t1 t2 : Int) (p : Rat)
    (cp : String) (v : Int) (resp2 : ProviderQuoteResp)
    (hk : c.apiKey = true)
    (hmiss : lookupFresh c.priceCache s t1 3600 = none)
    (hfresh : t2 - t1 < 3600) :
    (get_stock_price c t1 (.quote p cp v) s).1
      = .ok ⟨s, p, cp, v, t1⟩ ∧
    (get_stock_price c t1 (.quote p cp v) s).2.2 = true ∧
    get_stock_price (get_stock_price c t1 (.quote p cp v) s).2.1 t2 resp2 s
      = ((get_stock_price c t1 (.quote p cp v) s).1,
         (get_stock_price c t1 (.quote p cp v) s).2.1, false) := by
  have h1 : get_stock_price c t1 (.quote p cp v) s
      = (.ok ⟨s, p, cp, v, t1⟩,
         { c with priceCache :=
             dictInsert c.priceCache s (t1, ⟨s, p, cp, v, t1⟩) }, true) := by
    unfold get_stock_price
    simp [hk, hmiss]
  refine ⟨by rw [h1], by rw [h1], ?_⟩
  rw [h1]
  unfold get_stock_price
  simp only [hk, if_neg (by simp : ¬(true = false)),
    lookupFresh_dictInsert_self _ _ _ _ _ _ hfresh]

/-- Witness for C6: empty cache, provider quote of 100, second call 30 minutes
later. -/
theorem claim_C6_witness :
    (get_stock_price ⟨true, [], [], [], none⟩ 0 (.quote 100 "1.0%" 5000) "SPY").1
      = .ok ⟨"SPY", 100, "1.0%", 5000, 0⟩ ∧
    (get_stock_price ⟨true, [], [], [], none⟩ 0 (.quote 100 "1.0%" 5000) "SPY").2.2
      = true ∧
    get_stock_price
      (get_stock_price ⟨true, [], [], [], none⟩ 0 (.quote 100 "1.0%" 5000) "SPY").2.1
      1800 .noQuote "SPY"
      = ((get_stock_price ⟨true, [], [], [], none⟩ 0 (.quote 100 "1.0%" 5000) "SPY").1,
         (get_stock_price ⟨true, [], [], [], none⟩ 0 (.quote 100 "1.0%" 5000) "SPY").2.1,
         false) :=
  claim_C6 ⟨true, [], [], [], none⟩ "SPY" 0 1800 100 "1.0%" 5000 .noQuote rfl
    rfl (by norm_num)

/-- Claim C10: the cache is written only on a successful provider result —
every error-returning call leaves the client state unchanged (all four
operations), and for the quote and metrics operations an error with the API
key configured means the call issued a request, found no fresh entry, and any
later call still issues a fresh provider request. -/
theorem claim_C10 :
    (∀ (c : Client) (now : Int) (resp : ProviderQuoteResp) (s e : String),
       (get_stock_price c now resp s).1 = .error e →
       (get_stock_price c now resp s).2.1 = c) ∧
    (∀ (c : Client) (now : Int) (resp : ProviderPerfResp) (s e : String),
       (get_performance_metrics c now resp s).1 = .error e →
       (get_performance_metrics c now resp s).2.1 = c) ∧
    (∀ (c : Client) (now : Int) (resp : ProviderOverviewResp) (s e : String),
       (get_etf_overview c now resp s).1 = .error e →
       (get_etf_overview c now resp s).2.1 = c) ∧
    (∀ (c : Client) (now : Int) (resp : ProviderSectorResp) (e : String),
       (get_sector_performance c now resp).1 = .error e →
       (get_sector_performance c now resp).2.1 = c) ∧
    (∀ (c : Client) (t1 : Int) (resp : ProviderQuoteResp) (s e : String),
       c.apiKey = true → (get_stock_price c t1 resp s).1 = .error e →
       (get_stock_price c t1 resp s).2.2 = true ∧
       ∀ (t2 : Int) (resp2 : ProviderQuoteResp), t1 ≤ t2 →
         (get_stock_price (get_stock_price c t1 resp s).2.1 t2 resp2 s).2.2
           = true) ∧
    (∀ (c : Client) (t1 : Int) (resp : ProviderPerfResp) (s e : String),
       c.apiKey = true → (get_performance_metrics c t1 resp s).1 = .error e →
       (get_performance_metrics c t1 resp s).2.2 = true ∧
       ∀ (t2 : Int) (resp2 : ProviderPerfResp), t1 ≤ t2 →
         (get_performance_metrics
           (get_performance_metrics c t1 resp s).2.1 t2 resp2 s).2.2 = true) := by
  refine ⟨?_, ?_, ?_, ?_, ?_, ?_⟩
  · intro c now resp s e h
    exact (get_stock_price_error_inv h).1
  · intro c now resp s e h
    exact (get_performance_metrics_error_inv h).1
  · intro c now resp s e h
    exact get_etf_overview_error_inv h
  · intro c now resp e h
    exact get_sector_performance_error_inv h
  · intro c t1 resp s e hk h
    obtain ⟨hstate, hmiss⟩ := get_stock_price_error_inv h
    refine ⟨(hmiss hk).2, ?_⟩
    intro t2 resp2 h12
    rw [hstate]
    exact get_stock_price_miss_requests resp2 hk
      (lookupFresh_mono h12 (hmiss hk).1)
  · intro c t1 resp s e hk h
    obtain ⟨hstate, hmiss⟩ := get_performance_metrics_error_inv h
    refine ⟨(hmiss hk).2, ?_⟩
    intro t2 resp2 h12
    rw [hstate]
    exact get_performance_metrics_miss_requests resp2 hk
      (lookupFresh_mono h12 (hmiss hk).1)

/-- Witness for C10, applying it to a provider failure on an empty cache. -/
theorem claim_C10_witness :
    (get_stock_price ⟨true, [], [], [], none⟩ 0 (.failure "boom") "SPY").2.1
      = ⟨true, [], [], [], none⟩ ∧
    (get_stock_price ⟨true, [], [], [], none⟩ 0 (.failure "boom") "SPY").2.2
      = true ∧
    (get_stock_price
      (get_stock_price ⟨true, [], [], [], none⟩ 0 (.failure "boom") "SPY").2.1
      60 .noQuote "SPY").2.2 = true :=
  ⟨claim_C10.1 ⟨true, [], [], [], none⟩ 0 (.failure "boom") "SPY" "boom" rfl,
   (claim_C10.2.2.2.2.1 ⟨true, [], [], [], none⟩ 0 (.failure "boom") "SPY"
     "boom" rfl rfl).1,
   (claim_C10.2.2.2.2.1 ⟨true, [], [], [], none⟩ 0 (.failure "boom") "SPY"
     "boom" rfl rfl).2 60 .noQuote (by norm_num)⟩

theorem riskMatch_iff (tol : String) (score : Int) :
    riskMatch tol score = true ↔
      (tol = "low" ∧ score ≤ 4) ∨ (tol = "medium" ∧ 3 < score ∧ score ≤ 7) ∨
      (tol = "high" ∧ 6 < score) := by
  unfold riskMatch
  split_ifs with h1 h2 h3 <;> simp_all

theorem analyze_core_ok_inv {metrics : PerfResult} {price_data : QuoteResult}
    {symbol tol : String} {a : Analysis}
    (h : analyze_core metrics price_data symbol tol = .ok a) :
    a.risk_match = riskMatch tol a.risk_score := by
  cases metrics with
  | error e => simp [analyze_core] at h
  | ok m =>
    cases price_data with
    | error e => simp [analyze_core] at h
    | ok q =>
      by_cases hp : valsOf m = []
      · simp [analyze_core, hp] at h
      · simp only [analyze_core] at h
        rw [if_neg hp] at h
        injection h with h2
        subst h2
        rfl

/-- Claim C1 (amended): for every analysis returned without error,
`risk_match` is true iff the risk tolerance bracket matched, where the
medium bracket is `3 < risk_score ≤ 7` (the source's `risk_score > 3`), not
`4 < risk_score ≤ 7` as the claim stated. -/
theorem claim_C1 (c : Client) (now : Int) (perfResp : ProviderPerfResp)
    (quoteResp : ProviderQuoteResp) (symbol tol : String) (a : Analysis)
    (h : (analyze_etf_for_investment c now perfResp quoteResp symbol tol).1
      = .ok a) :
    (a.risk_match = true ↔
      (tol = "low" ∧ a.risk_score ≤ 4) ∨
      (tol = "medium" ∧ 3 < a.risk_score ∧ a.risk_score ≤ 7) ∨
      (tol = "high" ∧ 6 < a.risk_score)) := by
  have h2 : analyze_core
      (get_performance_metrics c now perfResp symbol).1
      (get_stock_price (get_performance_metrics c now perfResp symbol).2.1
        now quoteResp symbol).1 symbol tol = .ok a := h
  rw [analyze_core_ok_inv h2, riskMatch_iff]

/-- Evaluation of the concrete run behind `c1_analysis`, generic in the risk
tolerance. -/
theorem c1_run_eval (tol : String) :
    (analyze_etf_for_investment ⟨true, [], [], [], none⟩ 0
        (.series [(0, 120), (-30, 120), (-90, 100)])
        (.quote 100 "0.5%" 10) "VTI" tol).1
      = .ok (c1_analysis tol) := by
  have hp1 : pyRound2 (((120 : Rat) - 120) / 120 * 100) = 0 := by
    rw [pyRound2_eq 0 (by norm_num)]; norm_num
  have hp2 : pyRound2 (((120 : Rat) - 100) / 100 * 100) = 20 := by
    rw [pyRound2_eq 2000 (by norm_num)]; norm_num
  have hraw : (analyze_etf_for_investment ⟨true, [], [], [], none⟩ 0
        (.series [(0, 120), (-30, 120), (-90, 100)])
        (.quote 100 "0.5%" 10) "VTI" tol).1
      = .ok ⟨"VTI", 100,
          [("1mo", .ok (pyRound2 (((120 : Rat) - 120) / 120 * 100)) (-30)),
           ("3mo", .ok (pyRound2 (((120 : Rat) - 100) / 100 * 100)) (-90)),
           ("6mo", .err "No data available within 7 days of target date"),
           ("1yr", .err "No data available within 7 days of target date")],
          min 10 (max 1 (pyRound
            ((maxList [pyRound2 (((120 : Rat) - 120) / 120 * 100),
                       pyRound2 (((120 : Rat) - 100) / 100 * 100)] -
              minList [pyRound2 (((120 : Rat) - 120) / 120 * 100),
                       pyRound2 (((120 : Rat) - 100) / 100 * 100)]) / 5))),
          pyRound2
            (maxList [pyRound2 (((120 : Rat) - 120) / 120 * 100),
                      pyRound2 (((120 : Rat) - 100) / 100 * 100)] -
             minList [pyRound2 (((120 : Rat) - 120) / 120 * 100),
                      pyRound2 (((120 : Rat) - 100) / 100 * 100)]),
          riskMatch tol (min 10 (max 1 (pyRound
            ((maxList [pyRound2 (((120 : Rat) - 120) / 120 * 100),
                       pyRound2 (((120 : Rat) - 100) / 100 * 100)] -
              minList [pyRound2 (((120 : Rat) - 120) / 120 * 100),
                       pyRound2 (((120 : Rat) - 100) / 100 * 100)]) / 5)))),
          "hold"⟩ := rfl
  rw [hp1, hp2] at hraw
  have hmax : maxList [(0 : Rat), 20] = 20 := by
    show max (0 : Rat) 20 = 20
    exact max_eq_right (by norm_num)
  have hmin : minList [(0 : Rat), 20] = 0 := by
    show min (0 : Rat) 20 = 0
    exact min_eq_left (by norm_num)
  rw [hmax, hmin] at hraw
  have hr : pyRound (((20 : Rat) - 0) / 5) = 4 := by
    rw [show ((20 : Rat) - 0) / 5 = ((4 : Int) : Rat) by norm_num]
    exact pyRound_intCast 4
  rw [hr] at hraw
  have hv : pyRound2 ((20 : Rat) - 0) = 20 := by
    rw [pyRound2_eq 2000 (by norm_num)]; norm_num
  rw [hv] at hraw
  exact hraw

/-- Witness for C1: the amended equivalence at the concrete run with risk
tolerance "low" (risk score 4, risk_match true). -/
theorem claim_C1_witness :
    (c1_analysis "low").risk_match = true ↔
      ("low" = "low" ∧ (c1_analysis "low").risk_score ≤ 4) ∨
      ("low" = "medium" ∧ 3 < (c1_analysis "low").risk_score ∧
        (c1_analysis "low").risk_score ≤ 7) ∨
      ("low" = "high" ∧ 6 < (c1_analysis "low").risk_score) :=
  claim_C1 ⟨true, [], [], [], none⟩ 0
    (.series [(0, 120), (-30, 120), (-90, 100)]) (.quote 100 "0.5%" 10)
    "VTI" "low" (c1_analysis "low") (c1_run_eval "low")

/-- Counterexample to C1 as stated: with risk tolerance "medium" and risk
score 4, the code sets `risk_match := true` (its medium branch tests
`risk_score > 3`), but the claim's condition `4 < risk_score ≤ 7` is false
at 4, so the claimed equivalence fails. -/
theorem claim_C1_counterexample :
    (analyze_etf_for_investment ⟨true, [], [], [], none⟩ 0
        (.series [(0, 120), (-30, 120), (-90, 100)])
        (.quote 100 "0.5%" 10) "VTI" "medium").1
      = .ok (c1_analysis "medium") ∧
    (c1_analysis "medium").risk_match = true ∧
    (c1_analysis "medium").risk_score = 4 ∧
    ¬(("medium" = "low" ∧ (c1_analysis "medium").risk_score ≤ 4) ∨
      ("medium" = "medium" ∧ 4 < (c1_analysis "medium").risk_score ∧
        (c1_analysis "medium").risk_score ≤ 7) ∨
      ("medium" = "high" ∧ 6 < (c1_analysis "medium").risk_score)) :=
  ⟨c1_run_eval "medium", by decide, by decide, by decide⟩

/-- Claim C8: when extraction of the feedback reply fails, `process_feedback`
returns the fixed default FeedbackAnalysis, whose `risk_adjustment` is
"no change" and whose `preference_changes` and `strategy_adjustments` are
empty lists, instead of propagating an error. -/
theorem claim_C8 (reply : List Char)
    (h : extract_json_response reply = none) :
    process_feedback reply = default_feedback_analysis ∧
    jsonGet default_feedback_analysis "risk_adjustment"
      = some (.str "no change".toList) ∧
    jsonGet default_feedback_analysis "preference_changes" = some (.arr []) ∧
    jsonGet default_feedback_analysis "strategy_adjustments" = some (.arr []) := by
  refine ⟨?_, rfl, rfl, rfl⟩
  unfold process_feedback
  rw [h]

/-- Witness for C8 at a reply holding no JSON at all. -/
theorem claim_C8_witness :
    process_feedback "The model failed to answer.".toList
      = default_feedback_analysis ∧
    jsonGet default_feedback_analysis "risk_adjustment"
      = some (.str "no change".toList) ∧
    jsonGet default_feedback_analysis "preference_changes" = some (.arr []) ∧
    jsonGet default_feedback_analysis "strategy_adjustments" = some (.arr []) :=
  claim_C8 "The model failed to answer.".toList rfl

/-! ## C5: volatility, risk score, and the insufficient-data error -/

theorem horizonEntry_ok_grid {now : Int} {ts : List (Int × Rat)}
    {dates : List Int} {cur : Rat} {days : Int} {pc : Rat} {d : Int}
    (h : horizonEntry now ts dates cur days = some (.ok pc d)) :
    ∃ k : Int, pc = (k : Rat) / 100 := by
  simp only [horizonEntry] at h
  split at h
  next => simp at h
  next closest hmin =>
    split at h
    next =>
      split at h
      next => simp at h
      next past hlook =>
        split at h
        next => simp at h
        next =>
          rw [Option.some.injEq, HorizonEntry.ok.injEq] at h
          exact ⟨pyRound ((cur - past) / past * 100 * 100),
            by rw [← h.1, pyRound2]⟩
    next => simp at h

theorem mem_dictInsert {κ α : Type} [DecidableEq κ] {e : κ × α}
    {l : List (κ × α)} {k : κ} {v : α} (h : e ∈ dictInsert l k v) :
    e = (k, v) ∨ e ∈ l := by
  induction l with
  | nil => simpa [dictInsert] using h
  | cons h0 t ih =>
    obtain ⟨k0, v0⟩ := h0
    by_cases hk : k0 = k
    · rw [dictInsert, if_pos hk] at h
      rcases List.mem_cons.mp h with rfl | hmem
      · exact Or.inl rfl
      · exact Or.inr (List.mem_cons_of_mem _ hmem)
    · rw [dictInsert, if_neg hk] at h
      rcases List.mem_cons.mp h with rfl | hmem
      · exact Or.inr (List.mem_cons_self _ _)
      · rcases ih hmem with he | hmem2
        · exact Or.inl he
        · exact Or.inr (List.mem_cons_of_mem _ hmem2)

/-- Every metrics value `get_performance_metrics` returns is on the
two-decimal grid, provided every cached metrics value is. -/
theorem metricsGrid_of_fetch {c : Client} {now : Int}
    {resp : ProviderPerfResp} {s : String} {m : PerfMetrics}
    (hwf : ∀ e ∈ c.metricsCache, MetricsGrid e.2.2)
    (h : (get_performance_metrics c now resp s).1 = .ok m) : MetricsGrid m := by
  unfold get_performance_metrics at h
  by_cases hk : c.apiKey = false
  · simp [hk] at h
  · simp only [if_neg hk] at h
    split at h
    next m2 heq =>
      obtain rfl : m2 = m := by simpa using h
      obtain ⟨t, hmem⟩ := lookupFresh_mem heq
      exact hwf (s, t, m2) hmem
    next heq =>
      split at h
      next e2 => simp at h
      next => simp at h
      next ts =>
        split at h
        next hs => simp at h
        next d0 drest hs =>
          split at h
          next hc => simp at h
          next cur hc =>
            split at h
            next e1 e2 e3 e4 h30 h90 h180 h365 =>
              obtain rfl : PerfMetrics.mk s cur
                  [("1mo", e1), ("3mo", e2), ("6mo", e3), ("1yr", e4)] = m := by
                simpa using h
              intro v hv
              simp only [valsOf] at hv
              rcases List.mem_filterMap.mp hv with ⟨⟨nm, ei⟩, hmem, hf⟩
              simp only at hf
              have hgrid : ∀ (days : Int) (e : HorizonEntry),
                  horizonEntry now ts (d0 :: drest) cur days = some e →
                  (match e with
                   | HorizonEntry.ok p _ => some p
                   | HorizonEntry.err _ => none) = some v →
                  ∃ k : Int, v = (k : Rat) / 100 := by
                intro days e he hf2
                cases e with
                | err msg => simp at hf2
                | ok p d =>
                  obtain rfl : p = v := by simpa using hf2
                  exact horizonEntry_ok_grid he
              simp only [List.mem_cons, List.not_mem_nil, or_false] at hmem
              rcases hmem with h' | h' | h' | h' <;>
                rw [Prod.mk.injEq] at h' <;> rw [h'.2] at hf
              · exact hgrid 30 e1 h30 hf
              · exact hgrid 90 e2 h90 hf
              · exact hgrid 180 e3 h180 hf
              · exact hgrid 365 e4 h365 hf
            next => simp at h

theorem analyze_core_ok_of_ne (m : PerfMetrics) (q : FinancialQuote)
    (s tol : String) (hne : valsOf m ≠ []) :
    ∃ a, analyze_core (.ok m) (.ok q) s tol = .ok a ∧
      a.volatility = pyRound2 (maxList (valsOf m) - minList (valsOf m)) ∧
      a.risk_score
        = min 10 (max 1 (pyRound ((maxList (valsOf m) - minList (valsOf m)) / 5))) := by
  simp only [analyze_core]
  rw [if_neg hne]
  exact ⟨_, rfl, rfl, rfl⟩

/-- Claim C5: on successful fetches, the analysis errors with
"Insufficient performance data" iff no horizon carries a value; otherwise the
volatility is exactly max minus min of the succeeded horizons'
`price_change_percent` values (the `round(.., 2)` is the identity there,
because those values are already two-decimal), and the risk score is
`round(volatility / 5)` clamped to `[1, 10]`. The grid hypothesis on the
cache is the invariant that cached metrics were themselves produced by the
fetch path. -/
theorem claim_C5 (c : Client) (now : Int) (perfResp : ProviderPerfResp)
    (quoteResp : ProviderQuoteResp) (s tol : String) (m : PerfMetrics)
    (q : FinancialQuote)
    (hwf : ∀ e ∈ c.metricsCache, MetricsGrid e.2.2)
    (hm : (get_performance_metrics c now perfResp s).1 = .ok m)
    (hq : (get_stock_price (get_performance_metrics c now perfResp s).2.1
      now quoteResp s).1 = .ok q) :
    (valsOf m = [] →
      (analyze_etf_for_investment c now perfResp quoteResp s tol).1
        = .error s "Insufficient performance data") ∧
    (valsOf m ≠ [] → ∃ a,
      (analyze_etf_for_investment c now perfResp quoteResp s tol).1 = .ok a ∧
      a.volatility = maxList (valsOf m) - minList (valsOf m) ∧
      a.risk_score
        = min 10 (max 1 (pyRound ((maxList (valsOf m) - minList (valsOf m)) / 5)))) := by
  have hcore : (analyze_etf_for_investment c now perfResp quoteResp s tol).1
      = analyze_core (.ok m) (.ok q) s tol := by
    simp only [analyze_etf_for_investment]
    rw [hm, hq]
  constructor
  · intro hemp
    rw [hcore]
    simp only [analyze_core]
    rw [if_pos hemp]
  · intro hne
    have hgrid := metricsGrid_of_fetch hwf hm
    have hvol : pyRound2 (maxList (valsOf m) - minList (valsOf m))
        = maxList (valsOf m) - minList (valsOf m) := by
      obtain ⟨k1, hk1⟩ := hgrid _ (maxList_mem hne)
      obtain ⟨k2, hk2⟩ := hgrid _ (minList_mem hne)
      rw [hk1, hk2, div_sub_div_same, ← Int.cast_sub, pyRound2_grid]
    obtain ⟨a, ha, hav, has⟩ := analyze_core_ok_of_ne m q s tol hne
    exact ⟨a, by rw [hcore]; exact ha, by rw [hav, hvol], has⟩

theorem c5_hm :
    (get_performance_metrics ⟨true, [], [], [], none⟩ 0
      (.series [(0, 110), (-30, 100)]) "BND").1 = .ok c5_metrics := by
  have hp : pyRound2 (((110 : Rat) - 100) / 100 * 100) = 10 := by
    rw [pyRound2_eq 1000 (by norm_num)]; norm_num
  have hraw : (get_performance_metrics ⟨true, [], [], [], none⟩ 0
      (.series [(0, 110), (-30, 100)]) "BND").1
      = .ok ⟨"BND", 110,
          [("1mo", .ok (pyRound2 (((110 : Rat) - 100) / 100 * 100)) (-30)),
           ("3mo", .err "No data available within 7 days of target date"),
           ("6mo", .err "No data available within 7 days of target date"),
           ("1yr", .err "No data available within 7 days of target date")]⟩ := rfl
  rw [hp] at hraw
  exact hraw

theorem c5_hq :
    (get_stock_price
      (get_performance_metrics ⟨true, [], [], [], none⟩ 0
        (.series [(0, 110), (-30, 100)]) "BND").2.1
      0 (.quote 100 "0.9%" 7) "BND").1 = .ok ⟨"BND", 100, "0.9%", 7, 0⟩ := rfl

/-- Witness for C5 at a concrete one-valid-horizon run. -/
theorem claim_C5_witness :
    ∃ a, (analyze_etf_for_investment ⟨true, [], [], [], none⟩ 0
        (.series [(0, 110), (-30, 100)]) (.quote 100 "0.9%" 7) "BND" "low").1
      = .ok a ∧
      a.volatility = maxList (valsOf c5_metrics) - minList (valsOf c5_metrics) ∧
      a.risk_score = min 10 (max 1 (pyRound
        ((maxList (valsOf c5_metrics) - minList (valsOf c5_metrics)) / 5))) :=
  (claim_C5 ⟨true, [], [], [], none⟩ 0 (.series [(0, 110), (-30, 100)])
    (.quote 100 "0.9%" 7) "BND" "low" c5_metrics ⟨"BND", 100, "0.9%", 7, 0⟩
    (by simp) c5_hm c5_hq).2 (by decide)

/-! ## C2: the worked analyze example -/

/-- Claim C2 (amended): with the four horizon performances 2%, -1%, 3%, 18%
and a successful quote, `analyze(symbol, "low")` returns volatility 19
(`max - min` ranges over all four horizons, including the 18% year change),
risk score `round(19/5) = 4` (clamped), risk_match true for "low"
(4 ≤ 4), and recommendation "buy" — not volatility 4 and risk score 1 as
the claim computed. -/
theorem claim_C2 (c : Client) (now : Int) (perfResp : ProviderPerfResp)
    (quoteResp : ProviderQuoteResp) (s : String) (m : PerfMetrics)
    (q : FinancialQuote) (d1 d2 d3 d4 : Int)
    (hm : (get_performance_metrics c now perfResp s).1 = .ok m)
    (hperf : m.performance =
      [("1mo", .ok 2 d1), ("3mo", .ok (-1) d2),
       ("6mo", .ok 3 d3), ("1yr", .ok 18 d4)])
    (hq : (get_stock_price (get_performance_metrics c now perfResp s).2.1
      now quoteResp s).1 = .ok q) :
    ∃ a, (analyze_etf_for_investment c now perfResp quoteResp s "low").1
        = .ok a ∧
      a.volatility = 19 ∧ a.risk_score = 4 ∧ a.risk_match = true ∧
      a.recommendation = "buy" := by
  have hcore : (analyze_etf_for_investment c now perfResp quoteResp s "low").1
      = analyze_core (.ok m) (.ok q) s "low" := by
    simp only [analyze_etf_for_investment]
    rw [hm, hq]
  have hvals : valsOf m = [2, -1, 3, 18] := by
    rw [valsOf, hperf]
    rfl
  have hmax : maxList [(2 : Rat), -1, 3, 18] = 18 := by
    show max (max (max (2 : Rat) (-1)) 3) 18 = 18
    norm_num [max_def]
  have hmin : minList [(2 : Rat), -1, 3, 18] = -1 := by
    show min (min (min (2 : Rat) (-1)) 3) 18 = -1
    norm_num [min_def]
  have hpr : pyRound (((18 : Rat) - -1) / 5) = 4 := by
    have h := @pyRound_gt_half (((18 : Rat) - -1) / 5) 3 (by norm_num)
      (by norm_num)
    omega
  have hpv : pyRound2 ((18 : Rat) - -1) = 19 := by
    rw [pyRound2_eq 1900 (by norm_num)]; norm_num
  rw [hcore]
  simp only [analyze_core]
  rw [hvals, hperf,
    if_neg (show ¬([2, -1, 3, 18] : List Rat) = [] by decide),
    hmax, hmin, hpr, hpv]
  exact ⟨_, rfl, rfl, rfl, rfl, rfl⟩

theorem c2_hm :
    (get_performance_metrics ⟨true, [], [], [], none⟩ 0
      (.series c2_series) "SCHB").1 = .ok c2_metrics := by
  have hp1 : pyRound2 (((10227591 : Rat) - 10027050) / 10027050 * 100) = 2 := by
    rw [pyRound2_eq 200 (by norm_num)]; norm_num
  have hp2 : pyRound2 (((10227591 : Rat) - 10330900) / 10330900 * 100) = -1 := by
    rw [pyRound2_eq (-100) (by norm_num)]; norm_num
  have hp3 : pyRound2 (((10227591 : Rat) - 9929700) / 9929700 * 100) = 3 := by
    rw [pyRound2_eq 300 (by norm_num)]; norm_num
  have hp4 : pyRound2 (((10227591 : Rat) - 8667450) / 8667450 * 100) = 18 := by
    rw [pyRound2_eq 1800 (by norm_num)]; norm_num
  have hraw : (get_performance_metrics ⟨true, [], [], [], none⟩ 0
      (.series c2_series) "SCHB").1
      = .ok ⟨"SCHB", 10227591,
          [("1mo",
            .ok (pyRound2 (((10227591 : Rat) - 10027050) / 10027050 * 100)) (-30)),
           ("3mo",
            .ok (pyRound2 (((10227591 : Rat) - 10330900) / 10330900 * 100)) (-90)),
           ("6mo",
            .ok (pyRound2 (((10227591 : Rat) - 9929700) / 9929700 * 100)) (-180)),
           ("1yr",
            .ok (pyRound2 (((10227591 : Rat) - 8667450) / 8667450 * 100)) (-365))]⟩ :=
    rfl
  rw [hp1, hp2, hp3, hp4] at hraw
  exact hraw

theorem c2_hq :
    (get_stock_price
      (get_performance_metrics ⟨true, [], [], [], none⟩ 0
        (.series c2_series) "SCHB").2.1
      0 (.quote 42 "0.4%" 3) "SCHB").1 = .ok ⟨"SCHB", 42, "0.4%", 3, 0⟩ := rfl

/-- Witness for C2 at the concrete `c2_series` run. -/
theorem claim_C2_witness :
    ∃ a, (analyze_etf_for_investment ⟨true, [], [], [], none⟩ 0
        (.series c2_series) (.quote 42 "0.4%" 3) "SCHB" "low").1 = .ok a ∧
      a.volatility = 19 ∧ a.risk_score = 4 ∧ a.risk_match = true ∧
      a.recommendation = "buy" :=
  claim_C2 ⟨true, [], [], [], none⟩ 0 (.series c2_series) (.quote 42 "0.4%" 3)
    "SCHB" c2_metrics ⟨"SCHB", 42, "0.4%", 3, 0⟩ (-30) (-90) (-180) (-365)
    c2_hm rfl c2_hq

/-- Direct evaluation of the `c2_series` run, used by the counterexample. -/
theorem c2_run_eval :
    (analyze_etf_for_investment ⟨true, [], [], [], none⟩ 0
      (.series c2_series) (.quote 42 "0.4%" 3) "SCHB" "low").1
      = .ok c2_analysis := by
  have hstep : (analyze_etf_for_investment ⟨true, [], [], [], none⟩ 0
      (.series c2_series) (.quote 42 "0.4%" 3) "SCHB" "low").1
      = analyze_core (.ok c2_metrics) (.ok ⟨"SCHB", 42, "0.4%", 3, 0⟩)
          "SCHB" "low" := by
    simp only [analyze_etf_for_investment]
    rw [c2_hm, c2_hq]
  have hmax : maxList [(2 : Rat), -1, 3, 18] = 18 := by
    show max (max (max (2 : Rat) (-1)) 3) 18 = 18
    norm_num [max_def]
  have hmin : minList [(2 : Rat), -1, 3, 18] = -1 := by
    show min (min (min (2 : Rat) (-1)) 3) 18 = -1
    norm_num [min_def]
  have hpr : pyRound (((18 : Rat) - -1) / 5) = 4 := by
    have h := @pyRound_gt_half (((18 : Rat) - -1) / 5) 3 (by norm_num)
      (by norm_num)
    omega
  have hpv : pyRound2 ((18 : Rat) - -1) = 19 := by
    rw [pyRound2_eq 1900 (by norm_num)]; norm_num
  rw [hstep]
  simp only [analyze_core]
  rw [show valsOf c2_metrics = [2, -1, 3, 18] from rfl,
    if_neg (show ¬([2, -1, 3, 18] : List Rat) = [] by decide),
    hmax, hmin, hpr, hpv]
  rfl

/-- Counterexample to C2 as stated: at a concrete input satisfying the
claim's premises (all four horizons succeeded with 2%, -1%, 3%, 18%; quote
ok), the analysis has volatility 19 and risk score 4, not volatility 4 and
risk score 1. -/
theorem claim_C2_counterexample :
    (get_performance_metrics ⟨true, [], [], [], none⟩ 0
      (.series c2_series) "SCHB").1 = .ok c2_metrics ∧
    c2_metrics.performance =
      [("1mo", .ok 2 (-30)), ("3mo", .ok (-1) (-90)),
       ("6mo", .ok 3 (-180)), ("1yr", .ok 18 (-365))] ∧
    (analyze_etf_for_investment ⟨true, [], [], [], none⟩ 0
      (.series c2_series) (.quote 42 "0.4%" 3) "SCHB" "low").1
      = .ok c2_analysis ∧
    c2_analysis.volatility = 19 ∧ ¬(c2_analysis.volatility = 4) ∧
    c2_analysis.risk_score = 4 ∧ ¬(c2_analysis.risk_score = 1) :=
  ⟨c2_hm, rfl, c2_run_eval, rfl, by norm_num [c2_analysis], rfl, by decide⟩

/-! ## C7: portfolio aggregation -/

/-- Loop invariant for `evaluate_portfolio_symbols`: the accumulated
`valid_symbols` length, `total_volatility` and `matched_risk_count` equal the
initial accumulators plus the corresponding statistics of the per-call
analysis list. -/
theorem evalGo_spec (now : Int)
    (env : String → ProviderPerfResp × ProviderQuoteResp) (tol : String) :
    ∀ (symbols : List String) (c : Client)
      (res : List (String × AnalysisResult)) (val : List String) (tv : Rat)
      (mc : Nat),
      (evalGo now env tol symbols c res val tv mc).2.1.length
        = val.length + (okAnalyses (analysesList now env tol symbols c)).length ∧
      (evalGo now env tol symbols c res val tv mc).2.2.1
        = tv + ((okAnalyses (analysesList now env tol symbols c)).map
            (fun a => a.volatility)).sum ∧
      (evalGo now env tol symbols c res val tv mc).2.2.2.1
        = mc + (okAnalyses (analysesList now env tol symbols c)).countP
            (fun a => a.risk_match) := by
  intro symbols
  induction symbols with
  | nil =>
    intro c res val tv mc
    simp [evalGo, analysesList, okAnalyses]
  | cons s rest ih =>
    intro c res val tv mc
    simp only [evalGo, analysesList]
    cases hr : (analyze_etf_for_investment c now (env s).1 (env s).2 s tol).1 with
    | ok a =>
      obtain ⟨ih1, ih2, ih3⟩ := ih
        (analyze_etf_for_investment c now (env s).1 (env s).2 s tol).2
        (dictInsert res s
          (analyze_etf_for_investment c now (env s).1 (env s).2 s tol).1)
        (val ++ [s]) (tv + a.volatility)
        (mc + if a.risk_match then 1 else 0)
      rw [hr] at ih1 ih2 ih3
      simp only [okAnalyses, List.filterMap_cons] at ih1 ih2 ih3 ⊢
      refine ⟨?_, ?_, ?_⟩
      · rw [ih1]; simp [List.length_append]; omega
      · rw [ih2]; simp; ring
      · rw [ih3]; simp [List.countP_cons]
        by_cases hm : a.risk_match = true
        · simp [hm]
          omega
        · simp [hm]
          try omega
    | error s2 e2 =>
      obtain ⟨ih1, ih2, ih3⟩ := ih
        (analyze_etf_for_investment c now (env s).1 (env s).2 s tol).2
        (dictInsert res s
          (analyze_etf_for_investment c now (env s).1 (env s).2 s tol).1)
        val tv mc
      rw [hr] at ih1 ih2 ih3
      simp only [okAnalyses, List.filterMap_cons] at ih1 ih2 ih3 ⊢
      exact ⟨ih1, ih2, ih3⟩

/-- Claim C7 (amended): the aggregate metrics of `evaluate_portfolio_symbols`
count exactly the non-error analyses; the average volatility is the mean
volatility over the non-error analyses rounded to two decimal places
(`round(x, 2)`), the risk-match percentage is the percentage of non-error
analyses with risk_match true rounded to two decimal places, and the
diversification score is `min(10, valid count)`. -/
theorem claim_C7 (c : Client) (now : Int)
    (env : String → ProviderPerfResp × ProviderQuoteResp)
    (symbols : List String) (tol : String) :
    (evaluate_portfolio_symbols c now env symbols tol).1.portfolio_metrics.total_symbols
      = symbols.length ∧
    (evaluate_portfolio_symbols c now env symbols tol).1.portfolio_metrics.valid_symbols
      = (okAnalyses (analysesList now env tol symbols c)).length ∧
    (evaluate_portfolio_symbols c now env symbols tol).1.portfolio_metrics.avg_volatility
      = (if (okAnalyses (analysesList now env tol symbols c)).length ≠ 0 then
          pyRound2 (((okAnalyses (analysesList now env tol symbols c)).map
              (fun a => a.volatility)).sum /
            ((okAnalyses (analysesList now env tol symbols c)).length : Rat))
         else 0) ∧
    (evaluate_portfolio_symbols c now env symbols tol).1.portfolio_metrics.risk_match_percentage
      = (if (okAnalyses (analysesList now env tol symbols c)).length ≠ 0 then
          pyRound2 ((((okAnalyses (analysesList now env tol symbols c)).countP
              (fun a => a.risk_match) : Nat) : Rat) /
            ((okAnalyses (analysesList now env tol symbols c)).length : Rat) * 100)
         else 0) ∧
    (evaluate_portfolio_symbols c now env symbols tol).1.portfolio_metrics.diversification_score
      = (if (okAnalyses (analysesList now env tol symbols c)).length ≠ 0 then
          min 10 (okAnalyses (analysesList now env tol symbols c)).length
         else 0) := by
  obtain ⟨hlen, hsum, hcnt⟩ := evalGo_spec now env tol symbols c [] [] 0 0
  simp only [List.length_nil, Nat.zero_add, zero_add] at hlen hsum hcnt
  have hnil : (evalGo now env tol symbols c [] [] 0 0).2.1 = []
      ↔ (okAnalyses (analysesList now env tol symbols c)).length = 0 := by
    rw [← List.length_eq_zero, hlen]
  simp only [evaluate_portfolio_symbols]
  refine ⟨trivial, hlen, ?_, ?_, ?_⟩ <;>
    by_cases hc : (okAnalyses (analysesList now env tol symbols c)).length = 0
  · rw [if_neg (by simp [hnil, hc]), if_neg (by simp [hc])]
  · rw [if_pos (by simp [hnil, hc]), if_pos hc, hsum, hlen]
  · rw [if_neg (by simp [hnil, hc]), if_neg (by simp [hc])]
  · rw [if_pos (by simp [hnil, hc]), if_pos hc, hcnt, hlen]
  · rw [if_neg (by simp [hnil, hc]), if_neg (by simp [hc])]
  · rw [if_pos (by simp [hnil, hc]), if_pos hc, hlen]

theorem c7_mA :
    get_performance_metrics c7_client0 0 (c7_env "A").1 "A"
      = (.ok c7_metricsA, ⟨true, [], [("A", 0, c7_metricsA)], [], none⟩, true) := by
  have hp1 : pyRound2 (((10001 : Rat) - 10001) / 10001 * 100) = 0 := by
    rw [pyRound2_eq 0 (by norm_num)]; norm_num
  have hp2 : pyRound2 (((10001 : Rat) - 10000) / 10000 * 100) = 1/100 := by
    rw [pyRound2_eq 1 (by norm_num)]; norm_num
  have hraw : get_performance_metrics c7_client0 0 (c7_env "A").1 "A"
      = (.ok ⟨"A", 10001,
          [("1mo", .ok (pyRound2 (((10001 : Rat) - 10001) / 10001 * 100)) (-30)),
           ("3mo", .ok (pyRound2 (((10001 : Rat) - 10000) / 10000 * 100)) (-90)),
           ("6mo", .err "No data available within 7 days of target date"),
           ("1yr", .err "No data available within 7 days of target date")]⟩,
         ⟨true, [],
          [("A", 0, ⟨"A", 10001,
            [("1mo", .ok (pyRound2 (((10001 : Rat) - 10001) / 10001 * 100)) (-30)),
             ("3mo", .ok (pyRound2 (((10001 : Rat) - 10000) / 10000 * 100)) (-90)),
             ("6mo", .err "No data available within 7 days of target date"),
             ("1yr", .err "No data available within 7 days of target date")]⟩)],
          [], none⟩,
         true) := rfl
  rw [hp1, hp2] at hraw
  exact hraw

theorem c7_coreA :
    analyze_core (.ok c7_metricsA) (.ok (c7_quote "A")) "A" "medium"
      = .ok c7_analysisA := by
  have hmax : maxList [(0 : Rat), 1/100] = 1/100 := by
    show max (0 : Rat) (1/100) = 1/100
    exact max_eq_right (by norm_num)
  have hmin : minList [(0 : Rat), 1/100] = 0 := by
    show min (0 : Rat) (1/100) = 0
    exact min_eq_left (by norm_num)
  have hpr : pyRound (((1 : Rat)/100 - 0) / 5) = 0 :=
    @pyRound_lt_half (((1 : Rat)/100 - 0) / 5) 0 (by norm_num) (by norm_num)
  have hpv : pyRound2 ((1 : Rat)/100 - 0) = 1/100 := by
    rw [show ((1 : Rat)/100 - 0) = ((1 : Int) : Rat)/100 by norm_num,
      pyRound2_grid]
    norm_num
  simp only [analyze_core]
  rw [show valsOf c7_metricsA = [0, 1/100] from rfl,
    if_neg (show ¬([0, 1/100] : List Rat) = [] by decide),
    hmax, hmin, hpr, hpv]
  rfl

theorem c7_runA :
    analyze_etf_for_investment c7_client0 0 (c7_env "A").1 (c7_env "A").2
      "A" "medium" = (.ok c7_analysisA, c7_clientA) := by
  have hq : get_stock_price ⟨true, [], [("A", 0, c7_metricsA)], [], none⟩ 0
      (c7_env "A").2 "A" = (.ok (c7_quote "A"), c7_clientA, true) := rfl
  simp only [analyze_etf_for_investment, c7_mA, hq, c7_coreA]

theorem c7_mB :
    get_performance_metrics c7_clientA 0 (c7_env "B").1 "B"
      = (.ok c7_metricsB,
         ⟨true, [("A", 0, c7_quote "A")],
          [("A", 0, c7_metricsA), ("B", 0, c7_metricsB)], [], none⟩, true) := by
  have hp1 : pyRound2 (((10002 : Rat) - 10002) / 10002 * 100) = 0 := by
    rw [pyRound2_eq 0 (by norm_num)]; norm_num
  have hp2 : pyRound2 (((10002 : Rat) - 10000) / 10000 * 100) = 1/50 := by
    rw [pyRound2_eq 2 (by norm_num)]; norm_num
  have hraw : get_performance_metrics c7_clientA 0 (c7_env "B").1 "B"
      = (.ok ⟨"B", 10002,
          [("1mo", .ok (pyRound2 (((10002 : Rat) - 10002) / 10002 * 100)) (-30)),
           ("3mo", .ok (pyRound2 (((10002 : Rat) - 10000) / 10000 * 100)) (-90)),
           ("6mo", .err "No data available within 7 days of target date"),
           ("1yr", .err "No data available within 7 days of target date")]⟩,
         ⟨true, [("A", 0, c7_quote "A")],
          [("A", 0, c7_metricsA),
           ("B", 0, ⟨"B", 10002,
            [("1mo", .ok (pyRound2 (((10002 : Rat) - 10002) / 10002 * 100)) (-30)),
             ("3mo", .ok (pyRound2 (((10002 : Rat) - 10000) / 10000 * 100)) (-90)),
             ("6mo", .err "No data available within 7 days of target date"),
             ("1yr", .err "No data available within 7 days of target date")]⟩)],
          [], none⟩,
         true) := rfl
  rw [hp1, hp2] at hraw
  exact hraw

theorem c7_coreB :
    analyze_core (.ok c7_metricsB) (.ok (c7_quote "B")) "B" "medium"
      = .ok c7_analysisB := by
  have hmax : maxList [(0 : Rat), 1/50] = 1/50 := by
    show max (0 : Rat) (1/50) = 1/50
    exact max_eq_right (by norm_num)
  have hmin : minList [(0 : Rat), 1/50] = 0 := by
    show min (0 : Rat) (1/50) = 0
    exact min_eq_left (by norm_num)
  have hpr : pyRound (((1 : Rat)/50 - 0) / 5) = 0 :=
    @pyRound_lt_half (((1 : Rat)/50 - 0) / 5) 0 (by norm_num) (by norm_num)
  have hpv : pyRound2 ((1 : Rat)/50 - 0) = 1/50 := by
    rw [show ((1 : Rat)/50 - 0) = ((2 : Int) : Rat)/100 by norm_num,
      pyRound2_grid]
    norm_num
  simp only [analyze_core]
  rw [show valsOf c7_metricsB = [0, 1/50] from rfl,
    if_neg (show ¬([0, 1/50] : List Rat) = [] by decide),
    hmax, hmin, hpr, hpv]
  rfl

theorem c7_runB :
    analyze_etf_for_investment c7_clientA 0 (c7_env "B").1 (c7_env "B").2
      "B" "medium" = (.ok c7_analysisB, c7_clientB) := by
  have hq : get_stock_price
      ⟨true, [("A", 0, c7_quote "A")],
       [("A", 0, c7_metricsA), ("B", 0, c7_metricsB)], [], none⟩ 0
      (c7_env "B").2 "B" = (.ok (c7_quote "B"), c7_clientB, true) := rfl
  simp only [analyze_etf_for_investment, c7_mB, hq, c7_coreB]

/-- Counterexample to C7 as stated: for symbols "A" (volatility 0.01) and "B"
(volatility 0.02), both valid, the reported `avg_volatility` is
`round(0.015, 2) = 0.02` — not the mean 0.015 of the valid analyses'
volatilities, because the source rounds the mean to two decimal places
(banker's rounding at the half). -/
theorem claim_C7_counterexample :
    (evaluate_portfolio_symbols c7_client0 0 c7_env ["A", "B"]
      "medium").1.portfolio_metrics.avg_volatility = 1/50 ∧
    ((okAnalyses (analysesList 0 c7_env "medium" ["A", "B"] c7_client0)).map
        (fun a => a.volatility)).sum /
      ((okAnalyses (analysesList 0 c7_env "medium" ["A", "B"] c7_client0)).length : Rat)
      = 3/200 ∧
    ((1 : Rat)/50) ≠ 3/200 := by
  have hlist : analysesList 0 c7_env "medium" ["A", "B"] c7_client0
      = [.ok c7_analysisA, .ok c7_analysisB] := by
    simp only [analysesList, c7_runA, c7_runB]
  refine ⟨?_, ?_, by norm_num⟩
  · have h32 : pyRound ((3 : Rat)/2) = 2 := by
      rw [show (3 : Rat)/2 = ((1 : Int) : Rat) + 1/2 by norm_num]
      rw [@pyRound_half (((1 : Int) : Rat) + 1/2) 1 rfl]
      norm_num
    simp only [evaluate_portfolio_symbols, evalGo, c7_runA, c7_runB,
      c7_analysisA, c7_analysisB]
    norm_num [pyRound2, h32]
    decide
  · rw [hlist]
    simp only [okAnalyses, List.filterMap_cons, List.filterMap_nil]
    norm_num [c7_analysisA, c7_analysisB]

/-! ## C4: horizon matching in `get_performance_metrics` -/

theorem lookup_exists_of_mem_keys {κ α : Type} [BEq κ] [LawfulBEq κ]
    {l : List (κ × α)} {a : κ} (h : a ∈ l.map Prod.fst) :
    ∃ b, List.lookup a l = some b := by
  induction l with
  | nil => simp at h
  | cons hd t ih =>
    obtain ⟨k0, v0⟩ := hd
    rw [List.map_cons] at h
    by_cases hk : a = k0
    · exact ⟨v0, by simp [List.lookup, hk]⟩
    · rcases List.mem_cons.mp h with h1 | h2
      · exact absurd h1 hk
      · obtain ⟨b, hb⟩ := ih h2
        refine ⟨b, ?_⟩
        rw [List.lookup, show (a == k0) = false from beq_eq_false_iff_ne.mpr hk]
        exact hb

/-- One horizon's behavior: the loop picks the first date minimizing the
absolute day-distance to the target, and records a value iff that date is
within 7 days of the target (given nonzero closes, so no exception). -/
theorem horizonEntry_spec (now : Int) (ts : List (Int × Rat))
    (dates : List Int) (cur : Rat) (days : Int)
    (hd : dates ≠ []) (hsub : ∀ d ∈ dates, d ∈ ts.map Prod.fst)
    (hnz : ∀ p ∈ ts, p.2 ≠ 0) :
    ∃ closest e,
      isFirstArgmin (fun x => (x - (Int.fdiv now 86400 - days)).natAbs)
        dates closest ∧
      horizonEntry now ts dates cur days = some e ∧
      ((closest - (Int.fdiv now 86400 - days)).natAbs ≤ 7 →
        ∃ pc, e = .ok pc closest) ∧
      (¬(closest - (Int.fdiv now 86400 - days)).natAbs ≤ 7 →
        e = .err "No data available within 7 days of target date") := by
  obtain ⟨m, hm, hfa⟩ :=
    pyMinBy_spec (fun x => (x - (Int.fdiv now 86400 - days)).natAbs) hd
  obtain ⟨v, hv⟩ := lookup_exists_of_mem_keys (hsub m (isFirstArgmin_mem hfa))
  have hvnz : v ≠ 0 := hnz (m, v) (lookup_mem hv)
  by_cases hdist : (m - (Int.fdiv now 86400 - days)).natAbs ≤ 7
  · refine ⟨m, .ok (pyRound2 ((cur - v) / v * 100)) m, hfa, ?_,
      fun _ => ⟨_, rfl⟩, fun hcon => absurd hdist hcon⟩
    simp only [horizonEntry, hm, hv]
    rw [if_pos hdist, if_neg hvnz]
  · refine ⟨m, .err "No data available within 7 days of target date", hfa, ?_,
      fun hcon => absurd hcon hdist, fun _ => rfl⟩
    simp only [horizonEntry, hm]
    rw [if_neg hdist]

/-- Claim C4 (amended): for a symbol whose daily time-series fetch succeeds
(api key set, cache miss, nonempty series) and whose closes are all nonzero,
the call succeeds and, for each of the four horizons, the loop selects the
date minimizing the absolute day-distance to `now - horizon_days` — the
first minimal match in the descending-date iteration order winning ties —
and the horizon's entry carries a price-change value iff the selected date
is within 7 days of the target, and otherwise is the per-horizon error
record. (If a matched close is zero, Python instead raises
`ZeroDivisionError` and the whole call returns an error — see the
counterexample.) -/
theorem claim_C4 (c : Client) (now : Int) (ts : List (Int × Rat)) (s : String)
    (hk : c.apiKey = true)
    (hmiss : lookupFresh c.metricsCache s now 21600 = none)
    (hne : ts ≠ [])
    (hnz : ∀ p ∈ ts, p.2 ≠ 0) :
    ∃ m, get_performance_metrics c now (.series ts) s
        = (.ok m,
           { c with metricsCache := dictInsert c.metricsCache s (now, m) },
           true) ∧
      ∀ nmdays ∈ periods, ∃ closest e,
        isFirstArgmin (fun x => (x - (Int.fdiv now 86400 - nmdays.2)).natAbs)
          (sortDesc (ts.map Prod.fst)) closest ∧
        List.lookup nmdays.1 m.performance = some e ∧
        (((closest - (Int.fdiv now 86400 - nmdays.2)).natAbs ≤ 7) →
          ∃ pc, e = .ok pc closest) ∧
        (¬((closest - (Int.fdiv now 86400 - nmdays.2)).natAbs ≤ 7) →
          e = .err "No data available within 7 days of target date") := by
  have hd : sortDesc (ts.map Prod.fst) ≠ [] := by
    rw [Ne, sortDesc_eq_nil_iff, List.map_eq_nil_iff]
    exact hne
  have hsub : ∀ d ∈ sortDesc (ts.map Prod.fst), d ∈ ts.map Prod.fst :=
    fun d hd2 => mem_sortDesc.mp hd2
  cases hs : sortDesc (ts.map Prod.fst) with
  | nil => exact absurd hs hd
  | cons d0 drest =>
    rw [hs] at hsub
    obtain ⟨cur, hcur⟩ := lookup_exists_of_mem_keys (hsub d0 (by simp))
    obtain ⟨cl30, e30, hfa30, he30, hok30, herr30⟩ :=
      horizonEntry_spec now ts (d0 :: drest) cur 30 (by simp) hsub hnz
    obtain ⟨cl90, e90, hfa90, he90, hok90, herr90⟩ :=
      horizonEntry_spec now ts (d0 :: drest) cur 90 (by simp) hsub hnz
    obtain ⟨cl180, e180, hfa180, he180, hok180, herr180⟩ :=
      horizonEntry_spec now ts (d0 :: drest) cur 180 (by simp) hsub hnz
    obtain ⟨cl365, e365, hfa365, he365, hok365, herr365⟩ :=
      horizonEntry_spec now ts (d0 :: drest) cur 365 (by simp) hsub hnz
    refine ⟨⟨s, cur, [("1mo", e30), ("3mo", e90), ("6mo", e180), ("1yr", e365)]⟩,
      ?_, ?_⟩
    · unfold get_performance_metrics
      rw [if_neg (show ¬c.apiKey = false by simp [hk])]
      simp only [hmiss, hs, hcur, he30, he90, he180, he365]
    · intro nmdays hp
      simp only [periods, List.mem_cons, List.not_mem_nil, or_false] at hp
      rcases hp with rfl | rfl | rfl | rfl
      · exact ⟨cl30, e30, hfa30, rfl, hok30, herr30⟩
      · exact ⟨cl90, e90, hfa90, rfl, hok90, herr90⟩
      · exact ⟨cl180, e180, hfa180, rfl, hok180, herr180⟩
      · exact ⟨cl365, e365, hfa365, rfl, hok365, herr365⟩

/-- Witness for C4 at a three-date series. -/
theorem claim_C4_witness :
    ∃ m, get_performance_metrics ⟨true, [], [], [], none⟩ 0
        (.series [(0, 120), (-30, 120), (-90, 100)]) "VTI"
        = (.ok m, ⟨true, [], dictInsert [] "VTI" (0, m), [], none⟩, true) ∧
      ∀ nmdays ∈ periods, ∃ closest e,
        isFirstArgmin (fun x => (x - (Int.fdiv 0 86400 - nmdays.2)).natAbs)
          (sortDesc ([(0, (120 : Rat)), (-30, 120), (-90, 100)].map Prod.fst))
          closest ∧
        List.lookup nmdays.1 m.performance = some e ∧
        (((closest - (Int.fdiv 0 86400 - nmdays.2)).natAbs ≤ 7) →
          ∃ pc, e = .ok pc closest) ∧
        (¬((closest - (Int.fdiv 0 86400 - nmdays.2)).natAbs ≤ 7) →
          e = .err "No data available within 7 days of target date") :=
  claim_C4 ⟨true, [], [], [], none⟩ 0 [(0, 120), (-30, 120), (-90, 100)] "VTI"
    rfl rfl (by decide) (by decide)

/-- Counterexample to C4 as stated: a successful fetch whose 1-month matched
close is `0` makes the percent computation raise `ZeroDivisionError` inside
the `try` block, so the whole call returns an error instead of succeeding
with per-horizon entries. -/
theorem claim_C4_counterexample :
    get_performance_metrics ⟨true, [], [], [], none⟩ 0
        (.series [(0, 100), (-30, 0)]) "ZRO"
      = (.error "float division by zero", ⟨true, [], [], [], none⟩, true) := rfl

/-! ## C3: JSON extraction from surrounding prose -/

theorem findIdxFrom_cons_self (c : Char) (t : List Char) :
    findIdxFrom c (c :: t) = some 0 := by
  simp [findIdxFrom]

theorem findIdxFrom_append_left {c : Char} {p : List Char} (q : List Char)
    (hp : c ∉ p) :
    findIdxFrom c (p ++ q) = (findIdxFrom c q).map (· + p.length) := by
  induction p with
  | nil =>
    rw [List.nil_append]
    cases h : findIdxFrom c q <;> simp [h]
  | cons x t ih =>
    have hx : ¬x = c := fun h => hp (by simp [h])
    have ht : c ∉ t := fun h => hp (by simp [h])
    rw [List.cons_append, findIdxFrom, if_neg hx, ih ht]
    cases findIdxFrom c q <;> simp
    omega

/-- Claim C3 (amended): extraction recovers an embedded JSON object literal
from surrounding prose provided the prose before it contains no opening
brace and the prose after it contains no closing brace; with extra braces in
the prose the sliced span can fail to parse (see the counterexample). -/
theorem claim_C3 (p jmid s : List Char) (kvs : List (List Char × Json))
    (hp : Char.ofNat 123 ∉ p) (hs : Char.ofNat 125 ∉ s)
    (hj : json_loads (Char.ofNat 123 :: (jmid ++ [Char.ofNat 125]))
      = some (.obj kvs)) :
    extract_json_response
        (p ++ (Char.ofNat 123 :: (jmid ++ [Char.ofNat 125])) ++ s)
      = some (.obj kvs) := by
  have hopen : Char.ofNat 123 = '{' := rfl
  have hclose : Char.ofNat 125 = '}' := rfl
  rw [hopen] at hp hj ⊢
  rw [hclose] at hs hj ⊢
  have hfind : pyFind (p ++ ('{' :: (jmid ++ ['}'])) ++ s) '{'
      = (p.length : Int) := by
    unfold pyFind
    rw [List.append_assoc, findIdxFrom_append_left _ hp, List.cons_append,
      findIdxFrom_cons_self]
    simp
  have hrev : (p ++ ('{' :: (jmid ++ ['}'])) ++ s).reverse
      = s.reverse ++ ('}' :: (jmid.reverse ++ ('{' :: p.reverse))) := by
    simp
  have hsrev : '}' ∉ s.reverse := by
    rw [List.mem_reverse]; exact hs
  have hrfind : pyRFind (p ++ ('{' :: (jmid ++ ['}'])) ++ s) '}'
      = (p.length : Int) + jmid.length + 1 := by
    unfold pyRFind
    rw [hrev, findIdxFrom_append_left _ hsrev, findIdxFrom_cons_self]
    simp [List.length_append]
    omega
  have hslice : pySlice (p ++ ('{' :: (jmid ++ ['}'])) ++ s)
      (p.length : Int) ((p.length : Int) + jmid.length + 1 + 1)
      = '{' :: (jmid ++ ['}']) := by
    unfold pySlice
    rw [show ((p.length : Int) + jmid.length + 1 + 1 - p.length)
        = ((jmid.length + 2 : Nat) : Int) by push_cast; omega]
    rw [Int.toNat_natCast, Int.toNat_natCast, List.append_assoc,
      List.drop_left]
    rw [show jmid.length + 2 = ('{' :: (jmid ++ ['}'])).length by simp]
    exact List.take_left _ _
  unfold extract_json_response
  rw [hfind, hrfind,
    if_pos ⟨by positivity, by omega⟩, hslice]
  exact hj

/-- Witness for C3: the object literal between one-character prose pieces. -/
theorem claim_C3_witness :
    extract_json_response
        (['x'] ++ (Char.ofNat 123 :: ([] ++ [Char.ofNat 125])) ++ ['y'])
      = some (.obj []) :=
  claim_C3 ['x'] [] ['y'] [] (by decide) (by decide) rfl

/-- Counterexample to C3 as stated: the text `{}}` contains the well-formed
JSON object `{}` as a substring, but the first-brace-to-last-brace span is
`{}}`, which fails to parse, so extraction returns nothing. -/
theorem claim_C3_counterexample :
    [Char.ofNat 123, Char.ofNat 125, Char.ofNat 125]
      = [] ++ [Char.ofNat 123, Char.ofNat 125] ++ [Char.ofNat 125] ∧
    json_loads [Char.ofNat 123, Char.ofNat 125] = some (.obj []) ∧
    extract_json_response [Char.ofNat 123, Char.ofNat 125, Char.ofNat 125]
      = none :=
  ⟨rfl, rfl, rfl⟩

end InvestmentAdvisor
